import Mathlib

/-! OpenCLIPP `Statistics`: buffer lifecycle and operation traces

A shallow embedding of `C++/programs/Statistics.cpp`.

* The instance members (`m_PartialResult`, `m_PartialResultBuffer`,
  `m_PartialCoord`, `m_PartialCoordBuffer`, `m_Result`, `m_ResultBuffer`,
  `m_CL`) become the fields of the structure `Statistics`.
* Every member function becomes a state-passing function `StatM α`: it takes
  the instance state and yields the value or the exception, the state the
  instance is left in (a C++ exception keeps the mutations made before the
  throw), and the device commands issued, in program order.
* `size_t` arithmetic is arithmetic modulo `2 ^ 64`.
* The exception modelled is the one of the device buffer creation
  (`make_shared<Buffer>`); kernel launches, transfers and the host-side
  `vector::assign` are taken to succeed.
* Device commands take effect in issue order (one command stream per
  instance), so their effect on the buffers is applied when they are issued.
* Cell payloads (`float`, `int`, `double`) are only moved around by this file,
  never computed with, so one opaque payload type `Val` stands for all three;
  the promotion `float → double` is value preserving.
-/

namespace OpenCLIPP

/-- Payload of one buffer cell. -/
abbrev Val := Int

/-- Number of values of `size_t`. -/
def SIZE_T_RANGE : Nat := 2 ^ 64

/-- Number of values of `uint`. -/
def UINT_RANGE : Nat := 2 ^ 32

/-- Value of `sizeof(float)`. -/
def sizeof_float : Nat := 4

/-- Value of `sizeof(int)`. -/
def sizeof_int : Nat := 4

/-- Product of two `size_t` values. -/
def mulSize (a b : Nat) : Nat := (a * b) % SIZE_T_RANGE

/-- The part of `ImageBase` / `IImage` the file looks at: the extents, the
channel count and the pixel payload the kernels read. -/
structure ImageBase where
  Width : Nat
  Height : Nat
  NbChannels : Nat
  pixels : List Val
  deriving DecidableEq, Repr

/-- Kernel identifiers used in `Statistics.cpp`. -/
inductive KernelName
  | init | init_abs | init_4C | init_abs_4C
  | reduce_min | reduce_max | reduce_minabs | reduce_maxabs
  | reduce_sum | reduce_sum_sqr | reduce_count_nz | reduce_mean | reduce_mean_sqr
  | min_coord | max_coord | min_abs_coord | max_abs_coord
  | reduce_min_4C | reduce_max_4C | reduce_minabs_4C | reduce_maxabs_4C
  | reduce_sum_4C | reduce_sum_sqr_4C | reduce_mean_4C | reduce_mean_sqr_4C
  deriving DecidableEq, Repr

/-- The three device buffers of an instance. -/
inductive BufId
  | Result | PartialResult | PartialCoord
  deriving DecidableEq, Repr

/-- What an operation can throw or trip over. `clError` is the exception of
the OpenCL collaborator; `nullDeref` and `outOfBounds` are the two undefined
behaviours the file could run into (dereferencing an empty `shared_ptr`,
indexing a 4-slot array past its end). -/
inductive Fault
  | clError (code : Int)
  | nullDeref
  | outOfBounds
  deriving DecidableEq, Repr

/-- A 4-slot array: `float m_Result[4]`, `double outVal[4]`. -/
structure Slots4 where
  c0 : Val
  c1 : Val
  c2 : Val
  c3 : Val
  deriving DecidableEq, Repr

/-- Array read `a[i]`. -/
def Slots4.get (a : Slots4) (i : Nat) : Except Fault Val :=
  match i with
  | 0 => .ok a.c0
  | 1 => .ok a.c1
  | 2 => .ok a.c2
  | 3 => .ok a.c3
  | _ => .error .outOfBounds

/-- Array write `a[i] = v`. -/
def Slots4.set (a : Slots4) (i : Nat) (v : Val) : Except Fault Slots4 :=
  match i with
  | 0 => .ok { a with c0 := v }
  | 1 => .ok { a with c1 := v }
  | 2 => .ok { a with c2 := v }
  | 3 => .ok { a with c3 := v }
  | _ => .error .outOfBounds

/-- Modelled from the spec: the `Buffer` collaborator (declared outside this
file): "construct from a host-owned contiguous array plus logical element
count; `size()` in bytes". `handle` identifies the device allocation, `Size`
is the byte size, `dev` the device-side content. -/
structure Buffer (C : Type) where
  handle : Nat
  Size : Nat
  dev : C
  deriving DecidableEq, Repr

/-- Modelled from the spec: the accelerator context `*m_CL` as far as buffer
creation goes. `attempts` counts the buffer creations requested, `created` the
buffers created (the allocation counter), and `script` holds the outcome of the
upcoming creation requests, oldest first: `some code` makes the request fail
with that error, `none` (or an exhausted script) lets it succeed. -/
structure COpenCL where
  attempts : Nat
  created : Nat
  script : List (Option Int)
  deriving DecidableEq, Repr

/-- Modelled from the spec: the constructor `Buffer(CL, data, length)` of the
`Buffer` collaborator for cells of `elemSize` bytes, as `make_shared<Buffer>`
runs it: a fresh device buffer of `length * elemSize` bytes ("`size()` in
bytes") bound to the host array, or the collaborator's exception. -/
def Buffer.create (CL : COpenCL) (data : List Val) (length elemSize : Nat) :
    Except Fault (Buffer (List Val)) × COpenCL :=
  match CL.script with
  | some code :: rest =>
      (.error (.clError code),
        { attempts := CL.attempts + 1, created := CL.created, script := rest })
  | none :: rest =>
      (.ok { handle := CL.created, Size := mulSize length elemSize, dev := data },
        { attempts := CL.attempts + 1, created := CL.created + 1, script := rest })
  | [] =>
      (.ok { handle := CL.created, Size := mulSize length elemSize, dev := data },
        { attempts := CL.attempts + 1, created := CL.created + 1, script := [] })

/-- A buffer as it is handed to a kernel: which one, its handle, its byte size,
the length of the host array it mirrors and, for the accumulator, the content
the kernel finds in it. -/
structure BufArg where
  id : BufId
  handle : Nat
  Size : Nat
  hostLen : Nat
  acc : Option Slots4
  deriving DecidableEq, Repr

/-- Commands and host accesses of one operation, in program order. -/
inductive Event
  | SendIfNeeded
  | Launch (name : KernelName) (outs : List BufArg)
  | Read (buf : BufId) (blocking : Bool)
  | HostUse (bufs : List BufId)
  deriving DecidableEq, Repr

/-- Members of a `Statistics` instance. -/
structure Statistics where
  m_CL : COpenCL
  m_Result : Slots4
  m_ResultBuffer : Buffer Slots4
  m_PartialResult : List Val
  m_PartialResultBuffer : Option (Buffer (List Val))
  m_PartialCoord : List Val
  m_PartialCoordBuffer : Option (Buffer (List Val))
  deriving DecidableEq, Repr

/-- The collaborators of `Statistics.cpp` that live in `StatisticsHelpers.h`
and in the OpenCL programs, taken as parameters.
* `GetNbGroups` is the group-count function; its result is a `uint`, which
  `PrepareBuffer` widens with the cast `(size_t)`.
* `kernelAcc name Source old` is the content a kernel leaves in the 4-slot
  accumulator, `kernelCell name Source buf old i` the content it leaves in cell
  `i` of a partial buffer.
* `ReduceSum` .. `ReduceMax` are the host combine functions. -/
structure Env where
  GetNbGroups : ImageBase → Fin UINT_RANGE
  kernelAcc : KernelName → ImageBase → Slots4 → Slots4
  kernelCell : KernelName → ImageBase → BufId → List Val → Nat → Val
  ReduceSum : List Val → Val
  ReduceMean : List Val → Val
  ReduceSum4 : List Val → Nat → Slots4 → Slots4
  ReduceMean4 : List Val → Nat → Slots4 → Slots4
  ReduceMin : List Val → List Val → Val × Val × Val
  ReduceMax : List Val → List Val → Val × Val × Val
  castUint : Val → Val

/-- Outcome of running a member function: the value or the exception, the state
the instance is left in, the events issued. -/
structure Run (α : Type) where
  result : Except Fault α
  state : Statistics
  events : List Event

/-- A member function of `Statistics`. -/
def StatM (α : Type) : Type := Statistics → Run α

/-- Normal return. -/
def StatM.pure {α : Type} (a : α) : StatM α :=
  fun s => { result := .ok a, state := s, events := [] }

/-- Sequencing of two statements: an exception skips what follows and keeps
the state reached. -/
def StatM.bind {α β : Type} (m : StatM α) (f : α → StatM β) : StatM β :=
  fun s =>
    match m s with
    | { result := .error e, state := s1, events := t1 } =>
        { result := .error e, state := s1, events := t1 }
    | { result := .ok a, state := s1, events := t1 } =>
        match f a s1 with
        | { result := r, state := s2, events := t2 } =>
            { result := r, state := s2, events := t1 ++ t2 }

instance : Monad StatM where
  pure := StatM.pure
  bind := StatM.bind

/-- The value `(size_t) GetNbGroups(Image)`. -/
def NbGroupsOf (env : Env) (Image : ImageBase) : Nat :=
  (env.GetNbGroups Image).val % SIZE_T_RANGE

/-- The reuse test of `PrepareBuffer`:
`m_PartialResultBuffer != nullptr && m_PartialResultBuffer->Size() ==
BufferSize * sizeof(float) && m_PartialResult.size() == BufferSize`. -/
def resultBufferMatches (s : Statistics) (BufferSize : Nat) : Bool :=
  match s.m_PartialResultBuffer with
  | none => false
  | some b => b.Size == mulSize BufferSize sizeof_float &&
      s.m_PartialResult.length == BufferSize

/-- The reuse test of `PrepareCoords`:
`m_PartialCoordBuffer != nullptr && m_PartialCoordBuffer->Size() ==
BufferSize * sizeof(int) && m_PartialCoord.size() == BufferSize`. -/
def coordBufferMatches (s : Statistics) (BufferSize : Nat) : Bool :=
  match s.m_PartialCoordBuffer with
  | none => false
  | some b => b.Size == mulSize BufferSize sizeof_int &&
      s.m_PartialCoord.length == BufferSize

/-- `Statistics::PrepareBuffer`. -/
def Statistics.PrepareBuffer (env : Env) (Image : ImageBase) : StatM Unit :=
  fun s =>
    let NbGroups := NbGroupsOf env Image
    -- We need space for 4 channels + another space for the number of pixels
    let BufferSize := mulSize NbGroups (4 + 1)
    if resultBufferMatches s BufferSize then
      { result := .ok (), state := s, events := [] }
    else
      -- m_PartialResult.assign(BufferSize, 0)
      let s1 := { s with m_PartialResult := List.replicate BufferSize 0 }
      -- m_PartialResultBuffer.reset()
      let s2 := { s1 with m_PartialResultBuffer := none }
      -- m_PartialResultBuffer = make_shared<Buffer>(...)
      match Buffer.create s2.m_CL s2.m_PartialResult BufferSize sizeof_float with
      | (.error e, CL1) =>
          { result := .error e, state := { s2 with m_CL := CL1 }, events := [] }
      | (.ok b, CL1) =>
          { result := .ok (),
            state := { s2 with m_CL := CL1, m_PartialResultBuffer := some b },
            events := [] }

/-- The part of `Statistics::PrepareCoords` after the call of `PrepareBuffer`. -/
def Statistics.PrepareCoordsTail (env : Env) (Image : ImageBase) : StatM Unit :=
  fun s =>
    let NbGroups := NbGroupsOf env Image
    -- We are storing X and Y
    let BufferSize := mulSize NbGroups 2
    if coordBufferMatches s BufferSize then
      { result := .ok (), state := s, events := [] }
    else
      let s1 := { s with m_PartialCoord := List.replicate BufferSize 0 }
      let s2 := { s1 with m_PartialCoordBuffer := none }
      match Buffer.create s2.m_CL s2.m_PartialCoord BufferSize sizeof_int with
      | (.error e, CL1) =>
          { result := .error e, state := { s2 with m_CL := CL1 }, events := [] }
      | (.ok b, CL1) =>
          { result := .ok (),
            state := { s2 with m_CL := CL1, m_PartialCoordBuffer := some b },
            events := [] }

/-- `Statistics::PrepareCoords`. -/
def Statistics.PrepareCoords (env : Env) (Image : ImageBase) : StatM Unit := do
  Statistics.PrepareBuffer env Image
  Statistics.PrepareCoordsTail env Image

/-- A device-to-host transfer into a host array: the cells present on both
sides are overwritten with the device content. -/
def copyInto (dev host : List Val) : List Val :=
  dev.take host.length ++ host.drop dev.length

/-- The accumulator buffer as a kernel argument. -/
def resultArg (s : Statistics) : BufArg :=
  { id := .Result, handle := s.m_ResultBuffer.handle, Size := s.m_ResultBuffer.Size,
    hostLen := 4, acc := some s.m_ResultBuffer.dev }

/-- `Source.SendIfNeeded()`: the transfer of the image belongs to the image
collaborator; only the call is recorded. -/
def SendIfNeeded (_Source : ImageBase) : StatM Unit :=
  fun s => { result := .ok (), state := s, events := [.SendIfNeeded] }

/-- Enqueue of kernel `name` on `(Source, m_ResultBuffer)`: the
`cl::make_kernel<cl::Image2D, cl::Buffer>(..., name)(..., Source, m_ResultBuffer)`
of the `Init` functions and `Kernel(name, In(Source), Out(m_ResultBuffer), ...)`. -/
def KernelResult (env : Env) (name : KernelName) (Source : ImageBase) : StatM Unit :=
  fun s =>
    { result := .ok (),
      state := { s with
        m_ResultBuffer :=
          { s.m_ResultBuffer with dev := env.kernelAcc name Source s.m_ResultBuffer.dev } },
      events := [.Launch name [resultArg s]] }

/-- What kernel `name` leaves in a partial buffer with content `old`. -/
def runCells (env : Env) (name : KernelName) (Source : ImageBase) (buf : BufId)
    (old : List Val) : List Val :=
  (List.range old.length).map (env.kernelCell name Source buf old)

/-- `Kernel(name, In(Source), Out(*m_PartialResultBuffer), ...)`. -/
def KernelPartial (env : Env) (name : KernelName) (Source : ImageBase) : StatM Unit :=
  fun s =>
    match s.m_PartialResultBuffer with
    | none => { result := .error .nullDeref, state := s, events := [] }
    | some b =>
        { result := .ok (),
          state := { s with
            m_PartialResultBuffer :=
              some { b with dev := runCells env name Source .PartialResult b.dev } },
          events := [.Launch name
            [{ id := .PartialResult, handle := b.handle, Size := b.Size,
               hostLen := s.m_PartialResult.length, acc := none }]] }

/-- `Kernel(name, In(Source), Out(*m_PartialResultBuffer, *m_PartialCoordBuffer), ...)`. -/
def KernelCoord (env : Env) (name : KernelName) (Source : ImageBase) : StatM Unit :=
  fun s =>
    match s.m_PartialResultBuffer, s.m_PartialCoordBuffer with
    | some b, some c =>
        { result := .ok (),
          state := { s with
            m_PartialResultBuffer :=
              some { b with dev := runCells env name Source .PartialResult b.dev },
            m_PartialCoordBuffer :=
              some { c with dev := runCells env name Source .PartialCoord c.dev } },
          events := [.Launch name
            [{ id := .PartialResult, handle := b.handle, Size := b.Size,
               hostLen := s.m_PartialResult.length, acc := none },
             { id := .PartialCoord, handle := c.handle, Size := c.Size,
               hostLen := s.m_PartialCoord.length, acc := none }]] }
    | _, _ => { result := .error .nullDeref, state := s, events := [] }

/-- `m_ResultBuffer.Read(blocking)`. -/
def ReadResult (blocking : Bool) : StatM Unit :=
  fun s =>
    { result := .ok (), state := { s with m_Result := s.m_ResultBuffer.dev },
      events := [.Read .Result blocking] }

/-- `m_PartialResultBuffer->Read(blocking)`. -/
def ReadPartialResult (blocking : Bool) : StatM Unit :=
  fun s =>
    match s.m_PartialResultBuffer with
    | none => { result := .error .nullDeref, state := s, events := [] }
    | some b =>
        { result := .ok (),
          state := { s with m_PartialResult := copyInto b.dev s.m_PartialResult },
          events := [.Read .PartialResult blocking] }

/-- `m_PartialCoordBuffer->Read(blocking)`. -/
def ReadPartialCoord (blocking : Bool) : StatM Unit :=
  fun s =>
    match s.m_PartialCoordBuffer with
    | none => { result := .error .nullDeref, state := s, events := [] }
    | some c =>
        { result := .ok (),
          state := { s with m_PartialCoord := copyInto c.dev s.m_PartialCoord },
          events := [.Read .PartialCoord blocking] }

/-- The statement `return m_Result[i]`. -/
def ReturnResult (i : Nat) : StatM Val :=
  fun s => { result := s.m_Result.get i, state := s, events := [.HostUse [.Result]] }

/-- The loop `for (uint i = ...; i < NbChannels; i++) outVal[i] = m_Result[i];`
with `k` iterations left to run. -/
def copyChannels (m_Result : Slots4) : Nat → Nat → Slots4 → Except Fault Slots4
  | 0, _, outVal => .ok outVal
  | k + 1, i, outVal =>
      match m_Result.get i with
      | .error e => .error e
      | .ok v =>
          match outVal.set i v with
          | .error e => .error e
          | .ok outVal1 => copyChannels m_Result k (i + 1) outVal1

/-- The closing loop of the per-channel extrema, started at `i = 0`. -/
def StoreChannels (NbChannels : Nat) (outVal : Slots4) : StatM Slots4 :=
  fun s =>
    { result := copyChannels s.m_Result NbChannels 0 outVal, state := s,
      events := [.HostUse [.Result]] }

/-- A host combine over `m_PartialResult`. -/
def CombinePartial {α : Type} (f : List Val → α) : StatM α :=
  fun s =>
    { result := .ok (f s.m_PartialResult), state := s,
      events := [.HostUse [.PartialResult]] }

/-- A host combine over `m_PartialResult` and `m_PartialCoord`. -/
def CombineCoord {α : Type} (f : List Val → List Val → α) : StatM α :=
  fun s =>
    { result := .ok (f s.m_PartialResult s.m_PartialCoord), state := s,
      events := [.HostUse [.PartialResult, .PartialCoord]] }

/-- `Statistics::Init`. -/
def Statistics.Init (env : Env) (Source : ImageBase) : StatM Unit := do
  SendIfNeeded Source
  KernelResult env .init Source

/-- `Statistics::InitAbs`. -/
def Statistics.InitAbs (env : Env) (Source : ImageBase) : StatM Unit := do
  SendIfNeeded Source
  KernelResult env .init_abs Source

/-- `Statistics::Init4C`. -/
def Statistics.Init4C (env : Env) (Source : ImageBase) : StatM Unit := do
  SendIfNeeded Source
  KernelResult env .init_4C Source

/-- `Statistics::InitAbs4C`. -/
def Statistics.InitAbs4C (env : Env) (Source : ImageBase) : StatM Unit := do
  SendIfNeeded Source
  KernelResult env .init_abs_4C Source

/-- `double Statistics::Min(IImage& Source)`. -/
def Statistics.Min (env : Env) (Source : ImageBase) : StatM Val := do
  Statistics.Init env Source
  KernelResult env .reduce_min Source
  ReadResult true
  ReturnResult 0

/-- `double Statistics::Max(IImage& Source)`. -/
def Statistics.Max (env : Env) (Source : ImageBase) : StatM Val := do
  Statistics.Init env Source
  KernelResult env .reduce_max Source
  ReadResult true
  ReturnResult 0

/-- `double Statistics::MinAbs(IImage& Source)`. -/
def Statistics.MinAbs (env : Env) (Source : ImageBase) : StatM Val := do
  Statistics.InitAbs env Source
  KernelResult env .reduce_minabs Source
  ReadResult true
  ReturnResult 0

/-- `double Statistics::MaxAbs(IImage& Source)`. -/
def Statistics.MaxAbs (env : Env) (Source : ImageBase) : StatM Val := do
  Statistics.InitAbs env Source
  KernelResult env .reduce_maxabs Source
  ReadResult true
  ReturnResult 0

/-- `double Statistics::Sum(IImage& Source)`. -/
def Statistics.Sum (env : Env) (Source : ImageBase) : StatM Val := do
  Statistics.PrepareBuffer env Source
  KernelPartial env .reduce_sum Source
  ReadPartialResult true
  CombinePartial env.ReduceSum

/-- `double Statistics::SumSqr(IImage& Source)`. -/
def Statistics.SumSqr (env : Env) (Source : ImageBase) : StatM Val := do
  Statistics.PrepareBuffer env Source
  KernelPartial env .reduce_sum_sqr Source
  ReadPartialResult true
  CombinePartial env.ReduceSum

/-- `uint Statistics::CountNonZero(IImage& Source)`. -/
def Statistics.CountNonZero (env : Env) (Source : ImageBase) : StatM Val := do
  Statistics.PrepareBuffer env Source
  KernelPartial env .reduce_count_nz Source
  ReadPartialResult true
  CombinePartial (fun p => env.castUint (env.ReduceSum p))

/-- `double Statistics::Mean(IImage& Source)`. -/
def Statistics.Mean (env : Env) (Source : ImageBase) : StatM Val := do
  Statistics.PrepareBuffer env Source
  KernelPartial env .reduce_mean Source
  ReadPartialResult true
  CombinePartial env.ReduceMean

/-- `double Statistics::MeanSqr(IImage& Source)`. -/
def Statistics.MeanSqr (env : Env) (Source : ImageBase) : StatM Val := do
  Statistics.PrepareBuffer env Source
  KernelPartial env .reduce_mean_sqr Source
  ReadPartialResult true
  CombinePartial env.ReduceMean

/-- `double Statistics::Min(IImage& Source, int& outX, int& outY)`; the value
is `(result, outX, outY)`. -/
def Statistics.MinCoord (env : Env) (Source : ImageBase) : StatM (Val × Val × Val) := do
  Statistics.PrepareCoords env Source
  KernelCoord env .min_coord Source
  ReadPartialResult false
  ReadPartialCoord true
  CombineCoord env.ReduceMin

/-- `double Statistics::Max(IImage& Source, int& outX, int& outY)`. -/
def Statistics.MaxCoord (env : Env) (Source : ImageBase) : StatM (Val × Val × Val) := do
  Statistics.PrepareCoords env Source
  KernelCoord env .max_coord Source
  ReadPartialResult false
  ReadPartialCoord true
  CombineCoord env.ReduceMax

/-- `double Statistics::MinAbs(IImage& Source, int& outX, int& outY)`. -/
def Statistics.MinAbsCoord (env : Env) (Source : ImageBase) : StatM (Val × Val × Val) := do
  Statistics.PrepareCoords env Source
  KernelCoord env .min_abs_coord Source
  ReadPartialResult false
  ReadPartialCoord true
  CombineCoord env.ReduceMin

/-- `double Statistics::MaxAbs(IImage& Source, int& outX, int& outY)`. -/
def Statistics.MaxAbsCoord (env : Env) (Source : ImageBase) : StatM (Val × Val × Val) := do
  Statistics.PrepareCoords env Source
  KernelCoord env .max_abs_coord Source
  ReadPartialResult false
  ReadPartialCoord true
  CombineCoord env.ReduceMax

/-- `void Statistics::Min(IImage& Source, double outVal[4])`; the value is the
array `outVal` as the call leaves it. -/
def Statistics.Min4C (env : Env) (Source : ImageBase) (outVal : Slots4) : StatM Slots4 := do
  Statistics.Init4C env Source
  KernelResult env .reduce_min_4C Source
  ReadResult true
  StoreChannels Source.NbChannels outVal

/-- `void Statistics::Max(IImage& Source, double outVal[4])`. -/
def Statistics.Max4C (env : Env) (Source : ImageBase) (outVal : Slots4) : StatM Slots4 := do
  Statistics.Init4C env Source
  KernelResult env .reduce_max_4C Source
  ReadResult true
  StoreChannels Source.NbChannels outVal

/-- `void Statistics::MinAbs(IImage& Source, double outVal[4])`. -/
def Statistics.MinAbs4C (env : Env) (Source : ImageBase) (outVal : Slots4) : StatM Slots4 := do
  Statistics.InitAbs4C env Source
  KernelResult env .reduce_minabs_4C Source
  ReadResult true
  StoreChannels Source.NbChannels outVal

/-- `void Statistics::MaxAbs(IImage& Source, double outVal[4])`. -/
def Statistics.MaxAbs4C (env : Env) (Source : ImageBase) (outVal : Slots4) : StatM Slots4 := do
  Statistics.InitAbs4C env Source
  KernelResult env .reduce_maxabs_4C Source
  ReadResult true
  StoreChannels Source.NbChannels outVal

/-- `void Statistics::Sum(IImage& Source, double outVal[4])`. -/
def Statistics.Sum4C (env : Env) (Source : ImageBase) (outVal : Slots4) : StatM Slots4 := do
  Statistics.PrepareBuffer env Source
  KernelPartial env .reduce_sum_4C Source
  ReadPartialResult true
  CombinePartial (fun p => env.ReduceSum4 p Source.NbChannels outVal)

/-- `void Statistics::SumSqr(IImage& Source, double outVal[4])`. -/
def Statistics.SumSqr4C (env : Env) (Source : ImageBase) (outVal : Slots4) : StatM Slots4 := do
  Statistics.PrepareBuffer env Source
  KernelPartial env .reduce_sum_sqr_4C Source
  ReadPartialResult true
  CombinePartial (fun p => env.ReduceSum4 p Source.NbChannels outVal)

/-- `void Statistics::Mean(IImage& Source, double outVal[4])`. -/
def Statistics.Mean4C (env : Env) (Source : ImageBase) (outVal : Slots4) : StatM Slots4 := do
  Statistics.PrepareBuffer env Source
  KernelPartial env .reduce_mean_4C Source
  ReadPartialResult true
  CombinePartial (fun p => env.ReduceMean4 p Source.NbChannels outVal)

/-- `void Statistics::MeanSqr(IImage& Source, double outVal[4])`. -/
def Statistics.MeanSqr4C (env : Env) (Source : ImageBase) (outVal : Slots4) : StatM Slots4 := do
  Statistics.PrepareBuffer env Source
  KernelPartial env .reduce_mean_sqr_4C Source
  ReadPartialResult true
  CombinePartial (fun p => env.ReduceMean4 p Source.NbChannels outVal)

/-- The public operations of `Statistics`. -/
inductive Op
  | Min | Max | MinAbs | MaxAbs
  | Sum | SumSqr | CountNonZero | Mean | MeanSqr
  | MinCoord | MaxCoord | MinAbsCoord | MaxAbsCoord
  | Min4C | Max4C | MinAbs4C | MaxAbs4C
  | Sum4C | SumSqr4C | Mean4C | MeanSqr4C
  deriving DecidableEq, Repr

/-- What a public operation hands back: a scalar, a value with coordinates, or
the caller's array `outVal`. -/
inductive Ret
  | value (v : Val)
  | located (v : Val) (outX : Val) (outY : Val)
  | channels (outVal : Slots4)
  deriving DecidableEq, Repr

/-- Run one public operation on `Source`; `outVal` is the prior content of the
caller's array for the per-channel overloads. -/
def Op.run (env : Env) (op : Op) (Source : ImageBase) (outVal : Slots4) : StatM Ret :=
  match op with
  | .Min => do let v ← Statistics.Min env Source; pure (.value v)
  | .Max => do let v ← Statistics.Max env Source; pure (.value v)
  | .MinAbs => do let v ← Statistics.MinAbs env Source; pure (.value v)
  | .MaxAbs => do let v ← Statistics.MaxAbs env Source; pure (.value v)
  | .Sum => do let v ← Statistics.Sum env Source; pure (.value v)
  | .SumSqr => do let v ← Statistics.SumSqr env Source; pure (.value v)
  | .CountNonZero => do let v ← Statistics.CountNonZero env Source; pure (.value v)
  | .Mean => do let v ← Statistics.Mean env Source; pure (.value v)
  | .MeanSqr => do let v ← Statistics.MeanSqr env Source; pure (.value v)
  | .MinCoord => do let r ← Statistics.MinCoord env Source; pure (.located r.1 r.2.1 r.2.2)
  | .MaxCoord => do let r ← Statistics.MaxCoord env Source; pure (.located r.1 r.2.1 r.2.2)
  | .MinAbsCoord => do
      let r ← Statistics.MinAbsCoord env Source; pure (.located r.1 r.2.1 r.2.2)
  | .MaxAbsCoord => do
      let r ← Statistics.MaxAbsCoord env Source; pure (.located r.1 r.2.1 r.2.2)
  | .Min4C => do let o ← Statistics.Min4C env Source outVal; pure (.channels o)
  | .Max4C => do let o ← Statistics.Max4C env Source outVal; pure (.channels o)
  | .MinAbs4C => do let o ← Statistics.MinAbs4C env Source outVal; pure (.channels o)
  | .MaxAbs4C => do let o ← Statistics.MaxAbs4C env Source outVal; pure (.channels o)
  | .Sum4C => do let o ← Statistics.Sum4C env Source outVal; pure (.channels o)
  | .SumSqr4C => do let o ← Statistics.SumSqr4C env Source outVal; pure (.channels o)
  | .Mean4C => do let o ← Statistics.Mean4C env Source outVal; pure (.channels o)
  | .MeanSqr4C => do let o ← Statistics.MeanSqr4C env Source outVal; pure (.channels o)

/-- Operations whose kernel writes the partial-result buffer. -/
def Op.usesPartial : Op → Bool
  | .Min | .Max | .MinAbs | .MaxAbs => false
  | .Min4C | .Max4C | .MinAbs4C | .MaxAbs4C => false
  | _ => true

/-- Operations whose kernel also writes the partial-coordinate buffer. -/
def Op.usesCoords : Op → Bool
  | .MinCoord | .MaxCoord | .MinAbsCoord | .MaxAbsCoord => true
  | _ => false

/-- One call of a public operation: the operation, its image, the caller's
array. -/
structure Call where
  op : Op
  Source : ImageBase
  outVal : Slots4
  deriving DecidableEq, Repr

/-- State of the instance after a sequence of public calls, each started in
the state the previous one left (whether it returned or threw). -/
def runCalls (env : Env) : List Call → Statistics → Statistics
  | [], s => s
  | c :: rest, s => runCalls env rest (c.op.run env c.Source c.outVal s).state

/-- A sample collaborator set: 256 x 16 pixel groups, kernels that write the
first pixel plus the cell index, list sums as combines. -/
def sampleEnv : Env where
  GetNbGroups := fun img =>
    ⟨(((img.Width + 255) / 256) * ((img.Height + 15) / 16)) % UINT_RANGE,
      Nat.mod_lt _ (by decide)⟩
  kernelAcc := fun _ img _ =>
    { c0 := img.pixels.headD 0, c1 := img.pixels.headD 0 + 1,
      c2 := img.pixels.headD 0 + 2, c3 := img.pixels.headD 0 + 3 }
  kernelCell := fun _ img _ _ i => img.pixels.headD 0 + i
  ReduceSum := fun p => p.sum
  ReduceMean := fun p => p.sum
  ReduceSum4 := fun p _ o => { o with c0 := p.sum }
  ReduceMean4 := fun p _ o => { o with c0 := p.sum }
  ReduceMin := fun p c => (p.headD 0, c.headD 0, c.headD 0)
  ReduceMax := fun p c => (p.headD 0, c.headD 0, c.headD 0)
  castUint := fun v => v

/-- A freshly constructed instance: no partial buffers yet. -/
def freshStatistics : Statistics where
  m_CL := { attempts := 1, created := 1, script := [] }
  m_Result := { c0 := 0, c1 := 0, c2 := 0, c3 := 0 }
  m_ResultBuffer := { handle := 0, Size := 16, dev := { c0 := 0, c1 := 0, c2 := 0, c3 := 0 } }
  m_PartialResult := []
  m_PartialResultBuffer := none
  m_PartialCoord := []
  m_PartialCoordBuffer := none

/-- A 600 x 40 single-channel image: 3 x 3 groups. -/
def sampleImage : ImageBase :=
  { Width := 600, Height := 40, NbChannels := 1, pixels := [7, 3, 9] }

/-- An instance holding a matching partial-result buffer for `sampleImage`,
with non-zero host content. -/
def preparedStatistics : Statistics where
  m_CL := { attempts := 2, created := 2, script := [some (-4)] }
  m_Result := { c0 := 0, c1 := 0, c2 := 0, c3 := 0 }
  m_ResultBuffer := { handle := 0, Size := 16, dev := { c0 := 0, c1 := 0, c2 := 0, c3 := 0 } }
  m_PartialResult := List.replicate 45 3
  m_PartialResultBuffer := some { handle := 1, Size := 180, dev := List.replicate 45 3 }
  m_PartialCoord := []
  m_PartialCoordBuffer := none

/-- A second image with other extents and pixels but the same 3 x 3 groups. -/
def sampleImage2 : ImageBase :=
  { Width := 700, Height := 33, NbChannels := 3, pixels := [1, 2] }

/-- The partial-result members meet the requirement of `Image`: a device buffer
of `5 * NbGroups * sizeof(float)` bytes over a host sequence of `5 * NbGroups`
elements. -/
def resultReady (env : Env) (s : Statistics) (Image : ImageBase) : Bool :=
  match s.m_PartialResultBuffer with
  | none => false
  | some b => b.Size == 5 * (env.GetNbGroups Image).val * sizeof_float &&
      s.m_PartialResult.length == 5 * (env.GetNbGroups Image).val

/-- The coordinate members meet the requirement of `Image`: a device buffer of
`2 * NbGroups * sizeof(int)` bytes over a host sequence of `2 * NbGroups`
elements. -/
def coordReady (env : Env) (s : Statistics) (Image : ImageBase) : Bool :=
  match s.m_PartialCoordBuffer with
  | none => false
  | some c => c.Size == 2 * (env.GetNbGroups Image).val * sizeof_int &&
      s.m_PartialCoord.length == 2 * (env.GetNbGroups Image).val

/-- The reduction kernel each public operation launches. -/
def Op.kernel : Op → KernelName
  | .Min => .reduce_min | .Max => .reduce_max
  | .MinAbs => .reduce_minabs | .MaxAbs => .reduce_maxabs
  | .Sum => .reduce_sum | .SumSqr => .reduce_sum_sqr | .CountNonZero => .reduce_count_nz
  | .Mean => .reduce_mean | .MeanSqr => .reduce_mean_sqr
  | .MinCoord => .min_coord | .MaxCoord => .max_coord
  | .MinAbsCoord => .min_abs_coord | .MaxAbsCoord => .max_abs_coord
  | .Min4C => .reduce_min_4C | .Max4C => .reduce_max_4C
  | .MinAbs4C => .reduce_minabs_4C | .MaxAbs4C => .reduce_maxabs_4C
  | .Sum4C => .reduce_sum_4C | .SumSqr4C => .reduce_sum_sqr_4C
  | .Mean4C => .reduce_mean_4C | .MeanSqr4C => .reduce_mean_sqr_4C

/-- The initialization kernel of the operations that have one. -/
def Op.initKernel : Op → Option KernelName
  | .Min | .Max => some .init
  | .MinAbs | .MaxAbs => some .init_abs
  | .Min4C | .Max4C => some .init_4C
  | .MinAbs4C | .MaxAbs4C => some .init_abs_4C
  | _ => none

/-- The initialization kernels. -/
def KernelName.isInit : KernelName → Bool
  | .init | .init_abs | .init_4C | .init_abs_4C => true
  | _ => false

/-- Launch of an initialization kernel. -/
def Event.isInit : Event → Bool
  | .Launch n _ => n.isInit
  | _ => false

/-- Launch of a reduction kernel. -/
def Event.isReduce : Event → Bool
  | .Launch n _ => !n.isInit
  | _ => false

/-- A blocking device-to-host read. -/
def Event.isBlockingRead : Event → Bool
  | .Read _ true => true
  | _ => false

/-- A host combine, or the host read of the result that is returned. -/
def Event.isHostUse : Event → Bool
  | .HostUse _ => true
  | _ => false

/-- The event `a` coming before the event `b` breaks the order initialization,
reduction kernel, blocking read, host use. -/
def Event.outOfOrder (a b : Event) : Bool :=
  (a.isReduce && b.isInit) ||
  (a.isBlockingRead && (b.isInit || b.isReduce)) ||
  (a.isHostUse && (b.isInit || b.isReduce || b.isBlockingRead))

/-- Modelled from the spec: completion on the single command stream of one
`Statistics` object ("blocking means the calling thread stalls until
device-to-host transfer completes"; the commands of one stream complete in
issue order). A read of buffer `b` issued after position `launch` is complete
before position `use` when it is blocking itself or a blocking read is issued
after it, before `use`. -/
def ReadCompleteBetween (t : List Event) (b : BufId) (launch use : Nat) : Prop :=
  ∃ (r k : Nat) (blocking : Bool) (b2 : BufId), launch < r ∧ r ≤ k ∧ k < use ∧
    t[r]? = some (.Read b blocking) ∧ t[k]? = some (.Read b2 true)

/-- The accumulator content the reduction kernel of `op` finds, read off a
trace: the observation carried by the launch of `op.kernel`. -/
def reduceLaunchAcc (op : Op) : List Event → Option Slots4
  | [] => none
  | .Launch n (a :: _) :: rest =>
      if n = op.kernel then a.acc else reduceLaunchAcc op rest
  | _ :: rest => reduceLaunchAcc op rest

/-- The per-channel extrema without coordinates. -/
def Op.isExtremum4C : Op → Bool
  | .Min4C | .Max4C | .MinAbs4C | .MaxAbs4C => true
  | _ => false

/-- The scalar extrema without coordinates. -/
def Op.isExtremumScalar : Op → Bool
  | .Min | .Max | .MinAbs | .MaxAbs => true
  | _ => false

/-- An all-zero 4-slot array. -/
def zeroSlots : Slots4 := { c0 := 0, c1 := 0, c2 := 0, c3 := 0 }

/-- A 3-channel image. -/
def sampleImage3 : ImageBase :=
  { Width := 600, Height := 40, NbChannels := 3, pixels := [7, 3, 9] }

/-- An instance holding buffers sized for another image, with a collaborator
about to refuse the next buffer creation with error `-4`. -/
def staleStatistics : Statistics where
  m_CL := { attempts := 3, created := 3, script := [some (-4)] }
  m_Result := { c0 := 0, c1 := 0, c2 := 0, c3 := 0 }
  m_ResultBuffer := { handle := 0, Size := 16, dev := { c0 := 0, c1 := 0, c2 := 0, c3 := 0 } }
  m_PartialResult := [1, 2, 3, 4, 5]
  m_PartialResultBuffer := some { handle := 1, Size := 20, dev := [1, 2, 3, 4, 5] }
  m_PartialCoord := [6, 7]
  m_PartialCoordBuffer := some { handle := 2, Size := 8, dev := [6, 7] }

/-- A 1000 x 100 image: 4 x 7 groups. -/
def wideImage : ImageBase :=
  { Width := 1000, Height := 100, NbChannels := 1, pixels := [5] }

/-- Two earlier calls on images of other group counts. -/
def sampleHistory : List Call :=
  [{ op := .Sum, Source := wideImage, outVal := zeroSlots },
   { op := .MaxCoord, Source := sampleImage3, outVal := zeroSlots }]

/-! ## Arithmetic of the buffer sizes -/

theorem NbGroupsOf_eq (env : Env) (Image : ImageBase) :
    NbGroupsOf env Image = (env.GetNbGroups Image).val := by
  have h := (env.GetNbGroups Image).isLt
  unfold NbGroupsOf
  apply Nat.mod_eq_of_lt
  simp only [UINT_RANGE, SIZE_T_RANGE] at *
  omega

theorem resultSize_eq (env : Env) (Image : ImageBase) :
    mulSize (NbGroupsOf env Image) (4 + 1) = 5 * (env.GetNbGroups Image).val := by
  have h := (env.GetNbGroups Image).isLt
  rw [NbGroupsOf_eq]
  unfold mulSize
  simp only [UINT_RANGE, SIZE_T_RANGE] at *
  omega

theorem resultBytes_eq (env : Env) (Image : ImageBase) :
    mulSize (mulSize (NbGroupsOf env Image) (4 + 1)) sizeof_float
      = 5 * (env.GetNbGroups Image).val * sizeof_float := by
  have h := (env.GetNbGroups Image).isLt
  rw [resultSize_eq]
  unfold mulSize
  simp only [UINT_RANGE, SIZE_T_RANGE, sizeof_float] at *
  omega

theorem coordSize_eq (env : Env) (Image : ImageBase) :
    mulSize (NbGroupsOf env Image) 2 = 2 * (env.GetNbGroups Image).val := by
  have h := (env.GetNbGroups Image).isLt
  rw [NbGroupsOf_eq]
  unfold mulSize
  simp only [UINT_RANGE, SIZE_T_RANGE] at *
  omega

theorem coordBytes_eq (env : Env) (Image : ImageBase) :
    mulSize (mulSize (NbGroupsOf env Image) 2) sizeof_int
      = 2 * (env.GetNbGroups Image).val * sizeof_int := by
  have h := (env.GetNbGroups Image).isLt
  rw [coordSize_eq]
  unfold mulSize
  simp only [UINT_RANGE, SIZE_T_RANGE, sizeof_int] at *
  omega

theorem resultBytes_of_count (n : Fin UINT_RANGE) :
    mulSize (5 * n.val) sizeof_float = 5 * n.val * sizeof_float := by
  have h := n.isLt
  unfold mulSize
  simp only [UINT_RANGE, SIZE_T_RANGE, sizeof_float] at *
  omega

theorem coordBytes_of_count (n : Fin UINT_RANGE) :
    mulSize (2 * n.val) sizeof_int = 2 * n.val * sizeof_int := by
  have h := n.isLt
  unfold mulSize
  simp only [UINT_RANGE, SIZE_T_RANGE, sizeof_int] at *
  omega

/-! ## The two preparation functions -/

theorem resultBufferMatches_iff (s : Statistics) (B : Nat) :
    resultBufferMatches s B = true ↔
      ∃ b, s.m_PartialResultBuffer = some b ∧ b.Size = mulSize B sizeof_float ∧
        s.m_PartialResult.length = B := by
  unfold resultBufferMatches
  cases h : s.m_PartialResultBuffer with
  | none => simp
  | some b => simp

theorem coordBufferMatches_iff (s : Statistics) (B : Nat) :
    coordBufferMatches s B = true ↔
      ∃ c, s.m_PartialCoordBuffer = some c ∧ c.Size = mulSize B sizeof_int ∧
        s.m_PartialCoord.length = B := by
  unfold coordBufferMatches
  cases h : s.m_PartialCoordBuffer with
  | none => simp
  | some c => simp

/-- The reuse path of `PrepareBuffer`. -/
theorem PrepareBuffer_reuse (env : Env) (s : Statistics) (Image : ImageBase)
    (h : resultBufferMatches s (mulSize (NbGroupsOf env Image) (4 + 1)) = true) :
    Statistics.PrepareBuffer env Image s = { result := .ok (), state := s, events := [] } := by
  simp [Statistics.PrepareBuffer, h]

/-- The allocation path of `PrepareBuffer` when the creation fails. -/
theorem PrepareBuffer_fail (env : Env) (s : Statistics) (Image : ImageBase)
    (code : Int) (rest : List (Option Int))
    (h : resultBufferMatches s (mulSize (NbGroupsOf env Image) (4 + 1)) = false)
    (hs : s.m_CL.script = some code :: rest) :
    Statistics.PrepareBuffer env Image s =
      { result := .error (.clError code),
        state := { s with
          m_PartialResult := List.replicate (mulSize (NbGroupsOf env Image) (4 + 1)) 0,
          m_PartialResultBuffer := none,
          m_CL := { attempts := s.m_CL.attempts + 1, created := s.m_CL.created,
                    script := rest } },
        events := [] } := by
  simp [Statistics.PrepareBuffer, h, Buffer.create, hs]

/-- The allocation path of `PrepareBuffer` when the creation succeeds. -/
theorem PrepareBuffer_alloc (env : Env) (s : Statistics) (Image : ImageBase)
    (h : resultBufferMatches s (mulSize (NbGroupsOf env Image) (4 + 1)) = false)
    (hs : ∀ code rest, s.m_CL.script ≠ some code :: rest) :
    Statistics.PrepareBuffer env Image s =
      { result := .ok (),
        state := { s with
          m_PartialResult := List.replicate (mulSize (NbGroupsOf env Image) (4 + 1)) 0,
          m_PartialResultBuffer := some
            { handle := s.m_CL.created,
              Size := mulSize (mulSize (NbGroupsOf env Image) (4 + 1)) sizeof_float,
              dev := List.replicate (mulSize (NbGroupsOf env Image) (4 + 1)) 0 },
          m_CL := { attempts := s.m_CL.attempts + 1, created := s.m_CL.created + 1,
                    script := s.m_CL.script.tail } },
        events := [] } := by
  cases hsc : s.m_CL.script with
  | nil => simp [Statistics.PrepareBuffer, h, Buffer.create, hsc]
  | cons o rest =>
      cases o with
      | none => simp [Statistics.PrepareBuffer, h, Buffer.create, hsc]
      | some code => exact absurd hsc (hs code rest)

/-- Every outcome of `PrepareBuffer` is one of the three above. -/
theorem PrepareBuffer_outcome (env : Env) (s : Statistics) (Image : ImageBase) :
    (resultBufferMatches s (mulSize (NbGroupsOf env Image) (4 + 1)) = true) ∨
    (resultBufferMatches s (mulSize (NbGroupsOf env Image) (4 + 1)) = false ∧
      ∃ code rest, s.m_CL.script = some code :: rest) ∨
    (resultBufferMatches s (mulSize (NbGroupsOf env Image) (4 + 1)) = false ∧
      ∀ code rest, s.m_CL.script ≠ some code :: rest) := by
  cases h : resultBufferMatches s (mulSize (NbGroupsOf env Image) (4 + 1)) with
  | true => exact Or.inl rfl
  | false =>
      right
      by_cases hx : ∃ code rest, s.m_CL.script = some code :: rest
      · exact Or.inl ⟨rfl, hx⟩
      · right
        refine ⟨rfl, ?_⟩
        intro code rest hc
        exact hx ⟨code, rest, hc⟩

/-- After a normal return of `PrepareBuffer` the reuse test holds. -/
theorem PrepareBuffer_post (env : Env) (s : Statistics) (Image : ImageBase)
    (h : (Statistics.PrepareBuffer env Image s).result = .ok ()) :
    resultBufferMatches (Statistics.PrepareBuffer env Image s).state
      (mulSize (NbGroupsOf env Image) (4 + 1)) = true := by
  rcases PrepareBuffer_outcome env s Image with hm | ⟨hm, code, rest, hs⟩ | ⟨hm, hs⟩
  · rw [PrepareBuffer_reuse env s Image hm]
    exact hm
  · rw [PrepareBuffer_fail env s Image code rest hm hs] at h
    cases h
  · rw [PrepareBuffer_alloc env s Image hm hs]
    simp [resultBufferMatches]

/-- The reuse path of the coordinate part of `PrepareCoords`. -/
theorem PrepareCoordsTail_reuse (env : Env) (s : Statistics) (Image : ImageBase)
    (h : coordBufferMatches s (mulSize (NbGroupsOf env Image) 2) = true) :
    Statistics.PrepareCoordsTail env Image s =
      { result := .ok (), state := s, events := [] } := by
  simp [Statistics.PrepareCoordsTail, h]

/-- The allocation path of the coordinate part when the creation fails. -/
theorem PrepareCoordsTail_fail (env : Env) (s : Statistics) (Image : ImageBase)
    (code : Int) (rest : List (Option Int))
    (h : coordBufferMatches s (mulSize (NbGroupsOf env Image) 2) = false)
    (hs : s.m_CL.script = some code :: rest) :
    Statistics.PrepareCoordsTail env Image s =
      { result := .error (.clError code),
        state := { s with
          m_PartialCoord := List.replicate (mulSize (NbGroupsOf env Image) 2) 0,
          m_PartialCoordBuffer := none,
          m_CL := { attempts := s.m_CL.attempts + 1, created := s.m_CL.created,
                    script := rest } },
        events := [] } := by
  simp [Statistics.PrepareCoordsTail, h, Buffer.create, hs]

/-- The allocation path of the coordinate part when the creation succeeds. -/
theorem PrepareCoordsTail_alloc (env : Env) (s : Statistics) (Image : ImageBase)
    (h : coordBufferMatches s (mulSize (NbGroupsOf env Image) 2) = false)
    (hs : ∀ code rest, s.m_CL.script ≠ some code :: rest) :
    Statistics.PrepareCoordsTail env Image s =
      { result := .ok (),
        state := { s with
          m_PartialCoord := List.replicate (mulSize (NbGroupsOf env Image) 2) 0,
          m_PartialCoordBuffer := some
            { handle := s.m_CL.created,
              Size := mulSize (mulSize (NbGroupsOf env Image) 2) sizeof_int,
              dev := List.replicate (mulSize (NbGroupsOf env Image) 2) 0 },
          m_CL := { attempts := s.m_CL.attempts + 1, created := s.m_CL.created + 1,
                    script := s.m_CL.script.tail } },
        events := [] } := by
  cases hsc : s.m_CL.script with
  | nil => simp [Statistics.PrepareCoordsTail, h, Buffer.create, hsc]
  | cons o rest =>
      cases o with
      | none => simp [Statistics.PrepareCoordsTail, h, Buffer.create, hsc]
      | some code => exact absurd hsc (hs code rest)

/-- Every outcome of the coordinate part is one of the three above. -/
theorem PrepareCoordsTail_outcome (env : Env) (s : Statistics) (Image : ImageBase) :
    (coordBufferMatches s (mulSize (NbGroupsOf env Image) 2) = true) ∨
    (coordBufferMatches s (mulSize (NbGroupsOf env Image) 2) = false ∧
      ∃ code rest, s.m_CL.script = some code :: rest) ∨
    (coordBufferMatches s (mulSize (NbGroupsOf env Image) 2) = false ∧
      ∀ code rest, s.m_CL.script ≠ some code :: rest) := by
  cases h : coordBufferMatches s (mulSize (NbGroupsOf env Image) 2) with
  | true => exact Or.inl rfl
  | false =>
      right
      by_cases hx : ∃ code rest, s.m_CL.script = some code :: rest
      · exact Or.inl ⟨rfl, hx⟩
      · right
        refine ⟨rfl, ?_⟩
        intro code rest hc
        exact hx ⟨code, rest, hc⟩

/-- After a normal return of the coordinate part its reuse test holds. -/
theorem PrepareCoordsTail_post (env : Env) (s : Statistics) (Image : ImageBase)
    (h : (Statistics.PrepareCoordsTail env Image s).result = .ok ()) :
    coordBufferMatches (Statistics.PrepareCoordsTail env Image s).state
      (mulSize (NbGroupsOf env Image) 2) = true := by
  rcases PrepareCoordsTail_outcome env s Image with hm | ⟨hm, code, rest, hs⟩ | ⟨hm, hs⟩
  · rw [PrepareCoordsTail_reuse env s Image hm]
    exact hm
  · rw [PrepareCoordsTail_fail env s Image code rest hm hs] at h
    cases h
  · rw [PrepareCoordsTail_alloc env s Image hm hs]
    simp [coordBufferMatches]

/-- Sequencing after a statement that returned. -/
theorem bind_of_ok {α β : Type} (m : StatM α) (f : α → StatM β) (s s1 : Statistics)
    (a : α) (t1 : List Event) (h : m s = { result := .ok a, state := s1, events := t1 }) :
    (m >>= f) s =
      { result := (f a s1).result, state := (f a s1).state,
        events := t1 ++ (f a s1).events } := by
  show StatM.bind m f s = _
  unfold StatM.bind
  rw [h]

/-- Sequencing after a statement that threw. -/
theorem bind_of_error {α β : Type} (m : StatM α) (f : α → StatM β) (s s1 : Statistics)
    (e : Fault) (t1 : List Event)
    (h : m s = { result := .error e, state := s1, events := t1 }) :
    (m >>= f) s = { result := .error e, state := s1, events := t1 } := by
  show StatM.bind m f s = _
  unfold StatM.bind
  rw [h]

/-- The events of `PrepareBuffer`: it issues no device command. -/
theorem PrepareBuffer_events (env : Env) (s : Statistics) (Image : ImageBase) :
    (Statistics.PrepareBuffer env Image s).events = [] := by
  rcases PrepareBuffer_outcome env s Image with hm | ⟨hm, code, rest, hs⟩ | ⟨hm, hs⟩
  · rw [PrepareBuffer_reuse env s Image hm]
  · rw [PrepareBuffer_fail env s Image code rest hm hs]
  · rw [PrepareBuffer_alloc env s Image hm hs]

/-- The result of `PrepareBuffer` is a normal return or the collaborator's
exception. -/
theorem PrepareBuffer_result (env : Env) (s : Statistics) (Image : ImageBase) :
    (Statistics.PrepareBuffer env Image s).result = .ok () ∨
    ∃ code, (Statistics.PrepareBuffer env Image s).result = .error (.clError code) := by
  rcases PrepareBuffer_outcome env s Image with hm | ⟨hm, code, rest, hs⟩ | ⟨hm, hs⟩
  · rw [PrepareBuffer_reuse env s Image hm]
    exact Or.inl rfl
  · rw [PrepareBuffer_fail env s Image code rest hm hs]
    exact Or.inr ⟨code, rfl⟩
  · rw [PrepareBuffer_alloc env s Image hm hs]
    exact Or.inl rfl

/-- Sizes after a normal return of `PrepareBuffer`, in plain arithmetic. -/
theorem PrepareBuffer_sizes (env : Env) (s : Statistics) (Image : ImageBase)
    (h : (Statistics.PrepareBuffer env Image s).result = .ok ()) :
    (Statistics.PrepareBuffer env Image s).state.m_PartialResult.length
        = 5 * (env.GetNbGroups Image).val ∧
    ∃ b, (Statistics.PrepareBuffer env Image s).state.m_PartialResultBuffer = some b ∧
      b.Size = 5 * (env.GetNbGroups Image).val * sizeof_float := by
  have hp := PrepareBuffer_post env s Image h
  rw [resultBufferMatches_iff] at hp
  obtain ⟨b, hb, hsz, hlen⟩ := hp
  rw [resultBytes_eq] at hsz
  rw [resultSize_eq] at hlen
  exact ⟨hlen, b, hb, hsz⟩

/-- A normal return of `PrepareBuffer`, as a whole outcome. -/
theorem PrepareBuffer_run_ok (env : Env) (s : Statistics) (Image : ImageBase)
    (h : (Statistics.PrepareBuffer env Image s).result = .ok ()) :
    Statistics.PrepareBuffer env Image s =
      { result := .ok (), state := (Statistics.PrepareBuffer env Image s).state,
        events := [] } := by
  have he := PrepareBuffer_events env s Image
  cases hx : Statistics.PrepareBuffer env Image s with
  | mk r st ev =>
      rw [hx] at h he
      simp only at h he
      rw [h, he]

/-- A throwing `PrepareBuffer`, as a whole outcome. -/
theorem PrepareBuffer_run_error (env : Env) (s : Statistics) (Image : ImageBase) (e : Fault)
    (h : (Statistics.PrepareBuffer env Image s).result = .error e) :
    Statistics.PrepareBuffer env Image s =
      { result := .error e, state := (Statistics.PrepareBuffer env Image s).state,
        events := [] } := by
  have he := PrepareBuffer_events env s Image
  cases hx : Statistics.PrepareBuffer env Image s with
  | mk r st ev =>
      rw [hx] at h he
      simp only at h he
      rw [h, he]

/-- `PrepareCoords` when its `PrepareBuffer` call returns. -/
theorem PrepareCoords_of_ok (env : Env) (s : Statistics) (Image : ImageBase)
    (h : (Statistics.PrepareBuffer env Image s).result = .ok ()) :
    Statistics.PrepareCoords env Image s =
      Statistics.PrepareCoordsTail env Image (Statistics.PrepareBuffer env Image s).state := by
  unfold Statistics.PrepareCoords
  rw [bind_of_ok _ _ s _ () [] (PrepareBuffer_run_ok env s Image h)]
  simp

/-- `PrepareCoords` when its `PrepareBuffer` call throws. -/
theorem PrepareCoords_of_error (env : Env) (s : Statistics) (Image : ImageBase) (e : Fault)
    (h : (Statistics.PrepareBuffer env Image s).result = .error e) :
    Statistics.PrepareCoords env Image s =
      { result := .error e, state := (Statistics.PrepareBuffer env Image s).state,
        events := [] } := by
  unfold Statistics.PrepareCoords
  rw [bind_of_error _ _ s _ e [] (PrepareBuffer_run_error env s Image e h)]

/-! ## Buffer sizing and reuse -/

/-- C1: from every instance state and for every image, after a normal return
of `PrepareBuffer` the host partial-result sequence has `5 * NbGroups` elements
and the device partial-result buffer exists with byte size
`5 * NbGroups * sizeof(float)`. -/
theorem PrepareBuffer_establishes_sizes (env : Env) (s : Statistics) (Image : ImageBase)
    (h : (Statistics.PrepareBuffer env Image s).result = .ok ()) :
    (Statistics.PrepareBuffer env Image s).state.m_PartialResult.length
        = 5 * (env.GetNbGroups Image).val ∧
    ∃ b, (Statistics.PrepareBuffer env Image s).state.m_PartialResultBuffer = some b ∧
      b.Size = 5 * (env.GetNbGroups Image).val * sizeof_float :=
  PrepareBuffer_sizes env s Image h

/-- Witness of C1: a fresh instance and a 600 x 40 image (9 groups). -/
theorem PrepareBuffer_establishes_sizes_witness :
    (Statistics.PrepareBuffer sampleEnv sampleImage freshStatistics).result = .ok () ∧
    ((Statistics.PrepareBuffer sampleEnv sampleImage freshStatistics).state.m_PartialResult.length
        = 5 * (sampleEnv.GetNbGroups sampleImage).val ∧
      ∃ b, (Statistics.PrepareBuffer sampleEnv sampleImage
          freshStatistics).state.m_PartialResultBuffer = some b ∧
        b.Size = 5 * (sampleEnv.GetNbGroups sampleImage).val * sizeof_float) :=
  ⟨rfl, PrepareBuffer_establishes_sizes sampleEnv freshStatistics sampleImage rfl⟩

/-- C2: when a partial-result device buffer exists, its byte size is
`5 * NbGroups * sizeof(float)` and the host sequence has `5 * NbGroups`
elements, `PrepareBuffer` returns normally, requests no buffer creation and
leaves the whole instance state as it was: same buffer, same host sequence with
the same element values, same allocation counters. -/
theorem PrepareBuffer_reuse_unchanged (env : Env) (s : Statistics) (Image : ImageBase)
    (b : Buffer (List Val)) (hb : s.m_PartialResultBuffer = some b)
    (hsize : b.Size = 5 * (env.GetNbGroups Image).val * sizeof_float)
    (hlen : s.m_PartialResult.length = 5 * (env.GetNbGroups Image).val) :
    (Statistics.PrepareBuffer env Image s).result = .ok () ∧
    (Statistics.PrepareBuffer env Image s).state = s ∧
    (Statistics.PrepareBuffer env Image s).state.m_PartialResultBuffer = some b ∧
    (Statistics.PrepareBuffer env Image s).state.m_PartialResult = s.m_PartialResult ∧
    (Statistics.PrepareBuffer env Image s).state.m_CL.attempts = s.m_CL.attempts ∧
    (Statistics.PrepareBuffer env Image s).state.m_CL.created = s.m_CL.created := by
  have hm : resultBufferMatches s (mulSize (NbGroupsOf env Image) (4 + 1)) = true := by
    rw [resultBufferMatches_iff]
    refine ⟨b, hb, ?_, ?_⟩
    · rw [resultBytes_eq]
      exact hsize
    · rw [resultSize_eq]
      exact hlen
  rw [PrepareBuffer_reuse env s Image hm]
  exact ⟨rfl, rfl, hb, rfl, rfl, rfl⟩

/-- Witness of C2: the prepared instance and `sampleImage`. -/
theorem PrepareBuffer_reuse_unchanged_witness :
    (Statistics.PrepareBuffer sampleEnv sampleImage preparedStatistics).result = .ok () ∧
    (Statistics.PrepareBuffer sampleEnv sampleImage preparedStatistics).state
      = preparedStatistics :=
  have h := PrepareBuffer_reuse_unchanged sampleEnv preparedStatistics sampleImage
    { handle := 1, Size := 180, dev := List.replicate 45 3 } rfl (by decide) (by decide)
  ⟨h.1, h.2.1⟩

/-- C3: for two images with the same group count, preparing for the second
directly after a successful preparation for the first returns normally and
changes nothing: no buffer creation is requested (allocation counters as they
were), the buffers and the host sequences stay as the first preparation left
them. Holds for `PrepareBuffer` and for `PrepareCoords`. -/
theorem prepare_twice_same_groups (env : Env) (s : Statistics) (img1 img2 : ImageBase)
    (hg : env.GetNbGroups img1 = env.GetNbGroups img2) :
    ((Statistics.PrepareBuffer env img1 s).result = .ok () →
      (Statistics.PrepareBuffer env img2 (Statistics.PrepareBuffer env img1 s).state).result
          = .ok () ∧
      (Statistics.PrepareBuffer env img2 (Statistics.PrepareBuffer env img1 s).state).state
          = (Statistics.PrepareBuffer env img1 s).state) ∧
    ((Statistics.PrepareCoords env img1 s).result = .ok () →
      (Statistics.PrepareCoords env img2 (Statistics.PrepareCoords env img1 s).state).result
          = .ok () ∧
      (Statistics.PrepareCoords env img2 (Statistics.PrepareCoords env img1 s).state).state
          = (Statistics.PrepareCoords env img1 s).state) := by
  have hN : NbGroupsOf env img2 = NbGroupsOf env img1 := by
    unfold NbGroupsOf
    rw [hg]
  constructor
  · intro h
    have hp := PrepareBuffer_post env s img1 h
    rw [← hN] at hp
    rw [PrepareBuffer_reuse env _ img2 hp]
    exact ⟨rfl, rfl⟩
  · intro h
    rcases PrepareBuffer_result env s img1 with hok | ⟨code, herr⟩
    · rw [PrepareCoords_of_ok env s img1 hok] at h ⊢
      have hc := PrepareCoordsTail_post env _ img1 h
      have hp := PrepareBuffer_post env s img1 hok
      -- the coordinate part leaves the partial-result members alone
      have hp2 : resultBufferMatches
          (Statistics.PrepareCoordsTail env img1 (Statistics.PrepareBuffer env img1 s).state).state
          (mulSize (NbGroupsOf env img1) (4 + 1)) = true := by
        rcases PrepareCoordsTail_outcome env (Statistics.PrepareBuffer env img1 s).state img1
          with hm | ⟨hm, code, rest, hs⟩ | ⟨hm, hs⟩
        · rw [PrepareCoordsTail_reuse env _ img1 hm]
          exact hp
        · rw [PrepareCoordsTail_fail env _ img1 code rest hm hs]
          exact hp
        · rw [PrepareCoordsTail_alloc env _ img1 hm hs]
          exact hp
      rw [← hN] at hc hp2
      have hb2 := PrepareBuffer_reuse env _ img2 hp2
      have hok2 : (Statistics.PrepareBuffer env img2
          (Statistics.PrepareCoordsTail env img1
            (Statistics.PrepareBuffer env img1 s).state).state).result = .ok () := by
        rw [hb2]
      rw [PrepareCoords_of_ok env _ img2 hok2, hb2]
      rw [PrepareCoordsTail_reuse env _ img2 hc]
      exact ⟨rfl, rfl⟩
    · rw [PrepareCoords_of_error env s img1 _ herr] at h
      cases h

/-- Witness of C3: `sampleImage` then `sampleImage2` on a fresh instance. -/
theorem prepare_twice_same_groups_witness :
    sampleEnv.GetNbGroups sampleImage = sampleEnv.GetNbGroups sampleImage2 ∧
    (Statistics.PrepareBuffer sampleEnv sampleImage2
      (Statistics.PrepareBuffer sampleEnv sampleImage freshStatistics).state).state
        = (Statistics.PrepareBuffer sampleEnv sampleImage freshStatistics).state ∧
    (Statistics.PrepareCoords sampleEnv sampleImage2
      (Statistics.PrepareCoords sampleEnv sampleImage freshStatistics).state).state
        = (Statistics.PrepareCoords sampleEnv sampleImage freshStatistics).state :=
  have h := prepare_twice_same_groups sampleEnv freshStatistics sampleImage sampleImage2
    (by decide)
  ⟨by decide, (h.1 rfl).2, (h.2 rfl).2⟩

theorem resultReady_eq (env : Env) (s : Statistics) (Image : ImageBase) :
    resultBufferMatches s (mulSize (NbGroupsOf env Image) (4 + 1)) = resultReady env s Image := by
  unfold resultBufferMatches resultReady
  rw [resultBytes_eq, resultSize_eq]

theorem coordReady_eq (env : Env) (s : Statistics) (Image : ImageBase) :
    coordBufferMatches s (mulSize (NbGroupsOf env Image) 2) = coordReady env s Image := by
  unfold coordBufferMatches coordReady
  rw [coordBytes_eq, coordSize_eq]

/-- C6: after a normal return of `PrepareCoords` the coordinate sequence has
`2 * NbGroups` elements over a device buffer of `2 * NbGroups * sizeof(int)`
bytes; the coordinate members are left untouched when they already met that
requirement and are replaced by a zeroed sequence and a newly created buffer
when they did not, whatever happened to the partial-result buffer in the same
call: the number of buffers created by the call is one for each of the two
buffers that did not meet its requirement. -/
theorem PrepareCoords_sizes_and_reuse (env : Env) (s : Statistics) (Image : ImageBase)
    (h : (Statistics.PrepareCoords env Image s).result = .ok ()) :
    (Statistics.PrepareCoords env Image s).state.m_PartialCoord.length
        = 2 * (env.GetNbGroups Image).val ∧
    (∃ c, (Statistics.PrepareCoords env Image s).state.m_PartialCoordBuffer = some c ∧
      c.Size = 2 * (env.GetNbGroups Image).val * sizeof_int) ∧
    (coordReady env s Image = true →
      (Statistics.PrepareCoords env Image s).state.m_PartialCoordBuffer
          = s.m_PartialCoordBuffer ∧
      (Statistics.PrepareCoords env Image s).state.m_PartialCoord = s.m_PartialCoord) ∧
    (coordReady env s Image = false →
      (Statistics.PrepareCoords env Image s).state.m_PartialCoordBuffer
          = some { handle := s.m_CL.created + (if resultReady env s Image then 0 else 1),
                   Size := 2 * (env.GetNbGroups Image).val * sizeof_int,
                   dev := List.replicate (2 * (env.GetNbGroups Image).val) 0 } ∧
      (Statistics.PrepareCoords env Image s).state.m_PartialCoord
          = List.replicate (2 * (env.GetNbGroups Image).val) 0) ∧
    (Statistics.PrepareCoords env Image s).state.m_CL.created
        = s.m_CL.created + (if resultReady env s Image then 0 else 1)
            + (if coordReady env s Image then 0 else 1) := by
  rcases PrepareBuffer_result env s Image with hok | ⟨code, herr⟩
  swap
  · rw [PrepareCoords_of_error env s Image _ herr] at h
    cases h
  rw [PrepareCoords_of_ok env s Image hok] at h ⊢
  have hpost := PrepareCoordsTail_post env _ Image h
  rw [coordBufferMatches_iff] at hpost
  obtain ⟨c, hc, hcsz, hclen⟩ := hpost
  rw [coordBytes_eq] at hcsz
  rw [coordSize_eq] at hclen
  refine ⟨hclen, ⟨c, hc, hcsz⟩, ?_⟩
  clear hc hcsz hclen c
  rcases PrepareBuffer_outcome env s Image with hm | ⟨hm, code, rest, hs⟩ | ⟨hm, hs⟩
  · -- partial-result buffer reused
    have hPB := PrepareBuffer_reuse env s Image hm
    rw [hPB] at h ⊢
    rw [resultReady_eq] at hm
    rcases PrepareCoordsTail_outcome env s Image with hmc | ⟨hmc, code, rest, hs⟩ | ⟨hmc, hs⟩
    · rw [PrepareCoordsTail_reuse env s Image hmc]
      rw [coordReady_eq] at hmc
      simp [hm, hmc]
    · rw [PrepareCoordsTail_fail env s Image code rest hmc hs] at h
      cases h
    · rw [PrepareCoordsTail_alloc env s Image hmc hs]
      rw [coordReady_eq] at hmc
      simp [hm, hmc, coordSize_eq, coordBytes_of_count]
  · rw [PrepareBuffer_fail env s Image code rest hm hs] at hok
    cases hok
  · -- partial-result buffer reallocated
    have hPB := PrepareBuffer_alloc env s Image hm hs
    rw [hPB] at h ⊢
    rw [resultReady_eq] at hm
    rcases PrepareCoordsTail_outcome env
        (Statistics.PrepareBuffer env Image s).state Image
      with hmc | ⟨hmc, code, rest, hs2⟩ | ⟨hmc, hs2⟩
    · rw [hPB] at hmc
      rw [PrepareCoordsTail_reuse env _ Image hmc]
      have hmc2 : coordBufferMatches s (mulSize (NbGroupsOf env Image) 2) = true := hmc
      rw [coordReady_eq] at hmc2
      simp [hm, hmc2]
    · rw [hPB] at hmc hs2
      rw [PrepareCoordsTail_fail env _ Image code rest hmc hs2] at h
      cases h
    · rw [hPB] at hmc hs2
      rw [PrepareCoordsTail_alloc env _ Image hmc hs2]
      have hmc2 : coordBufferMatches s (mulSize (NbGroupsOf env Image) 2) = false := hmc
      rw [coordReady_eq] at hmc2
      simp [hm, hmc2, coordSize_eq, coordBytes_of_count]

/-- Witness of C6: a fresh instance, both buffers created. -/
theorem PrepareCoords_sizes_and_reuse_witness :
    (Statistics.PrepareCoords sampleEnv sampleImage freshStatistics).result = .ok () ∧
    (Statistics.PrepareCoords sampleEnv sampleImage freshStatistics).state.m_PartialCoord.length
        = 2 * (sampleEnv.GetNbGroups sampleImage).val ∧
    (Statistics.PrepareCoords sampleEnv sampleImage freshStatistics).state.m_CL.created
        = freshStatistics.m_CL.created
            + (if resultReady sampleEnv freshStatistics sampleImage then 0 else 1)
            + (if coordReady sampleEnv freshStatistics sampleImage then 0 else 1) :=
  have h := PrepareCoords_sizes_and_reuse sampleEnv freshStatistics sampleImage rfl
  ⟨rfl, h.1, h.2.2.2.2⟩

/-! ## Failure of the buffer creation -/

/-- With no partial-result buffer held, `PrepareBuffer` requests a creation. -/
theorem PrepareBuffer_attempts_of_none (env : Env) (s : Statistics) (Image : ImageBase)
    (h : s.m_PartialResultBuffer = none) :
    (Statistics.PrepareBuffer env Image s).state.m_CL.attempts = s.m_CL.attempts + 1 := by
  have hm : resultBufferMatches s (mulSize (NbGroupsOf env Image) (4 + 1)) = false := by
    simp [resultBufferMatches, h]
  rcases PrepareBuffer_outcome env s Image with hm2 | ⟨_, code, rest, hs⟩ | ⟨_, hs⟩
  · rw [hm] at hm2
    cases hm2
  · rw [PrepareBuffer_fail env s Image code rest hm hs]
  · rw [PrepareBuffer_alloc env s Image hm hs]

/-- With no coordinate buffer held, the coordinate part requests a creation. -/
theorem PrepareCoordsTail_attempts_of_none (env : Env) (s : Statistics) (Image : ImageBase)
    (h : s.m_PartialCoordBuffer = none) :
    (Statistics.PrepareCoordsTail env Image s).state.m_CL.attempts = s.m_CL.attempts + 1 := by
  have hm : coordBufferMatches s (mulSize (NbGroupsOf env Image) 2) = false := by
    simp [coordBufferMatches, h]
  rcases PrepareCoordsTail_outcome env s Image with hm2 | ⟨_, code, rest, hs⟩ | ⟨_, hs⟩
  · rw [hm] at hm2
    cases hm2
  · rw [PrepareCoordsTail_fail env s Image code rest hm hs]
  · rw [PrepareCoordsTail_alloc env s Image hm hs]

/-- What `PrepareBuffer` leaves alone: the coordinate members and the
accumulator; and it never lowers the request counter. -/
theorem PrepareBuffer_frame (env : Env) (s : Statistics) (Image : ImageBase) :
    (Statistics.PrepareBuffer env Image s).state.m_PartialCoordBuffer = s.m_PartialCoordBuffer ∧
    (Statistics.PrepareBuffer env Image s).state.m_PartialCoord = s.m_PartialCoord ∧
    (Statistics.PrepareBuffer env Image s).state.m_Result = s.m_Result ∧
    (Statistics.PrepareBuffer env Image s).state.m_ResultBuffer = s.m_ResultBuffer ∧
    s.m_CL.attempts ≤ (Statistics.PrepareBuffer env Image s).state.m_CL.attempts := by
  rcases PrepareBuffer_outcome env s Image with hm | ⟨hm, code, rest, hs⟩ | ⟨hm, hs⟩
  · rw [PrepareBuffer_reuse env s Image hm]
    exact ⟨rfl, rfl, rfl, rfl, le_refl _⟩
  · rw [PrepareBuffer_fail env s Image code rest hm hs]
    exact ⟨rfl, rfl, rfl, rfl, Nat.le_succ _⟩
  · rw [PrepareBuffer_alloc env s Image hm hs]
    exact ⟨rfl, rfl, rfl, rfl, Nat.le_succ _⟩

/-- With no coordinate buffer held, `PrepareCoords` requests a creation: the
one of the coordinate buffer whenever its `PrepareBuffer` call returns. -/
theorem PrepareCoords_attempts_of_none (env : Env) (s : Statistics) (Image : ImageBase)
    (h : s.m_PartialCoordBuffer = none) :
    s.m_CL.attempts < (Statistics.PrepareCoords env Image s).state.m_CL.attempts ∧
    ((Statistics.PrepareBuffer env Image s).result = .ok () →
      (Statistics.PrepareCoords env Image s).state.m_CL.attempts
        = (Statistics.PrepareBuffer env Image s).state.m_CL.attempts + 1) := by
  have hf := PrepareBuffer_frame env s Image
  have hnone : (Statistics.PrepareBuffer env Image s).state.m_PartialCoordBuffer = none := by
    rw [hf.1, h]
  have ht := PrepareCoordsTail_attempts_of_none env _ Image hnone
  rcases PrepareBuffer_result env s Image with hok | ⟨code, herr⟩
  · rw [PrepareCoords_of_ok env s Image hok]
    refine ⟨?_, fun _ => ht⟩
    have := hf.2.2.2.2
    omega
  · rw [PrepareCoords_of_error env s Image _ herr]
    constructor
    · -- the failing `PrepareBuffer` call is itself a creation request
      rcases PrepareBuffer_outcome env s Image with hm | ⟨hm, code2, rest, hs⟩ | ⟨hm, hs⟩
      · rw [PrepareBuffer_reuse env s Image hm] at herr
        cases herr
      · rw [PrepareBuffer_fail env s Image code2 rest hm hs]
        exact Nat.lt_succ_self _
      · rw [PrepareBuffer_alloc env s Image hm hs] at herr
        cases herr
    · intro hok
      rw [herr] at hok
      cases hok

/-- C5: when the creation of the device buffer fails with error `code`
inside `PrepareBuffer`, the call throws that same error, the partial-result
handle is left null, and the next `PrepareBuffer` call on any image requests a
creation again. Likewise for `PrepareCoords`: when the creation of the
coordinate buffer fails, the call throws that same error, the coordinate handle
is left null, and the next `PrepareCoords` call on any image requests a
creation again (the one of the coordinate buffer as soon as its `PrepareBuffer`
call returns); when the failure is the one of its `PrepareBuffer` call, the
error is passed on and the partial-result handle is null. -/
theorem creation_failure_resets_handle (env : Env) (s : Statistics) (Image : ImageBase)
    (code : Int) (rest : List (Option Int)) :
    (resultReady env s Image = false → s.m_CL.script = some code :: rest →
      (Statistics.PrepareBuffer env Image s).result = .error (.clError code) ∧
      (Statistics.PrepareBuffer env Image s).state.m_PartialResultBuffer = none ∧
      (∀ Image2,
        (Statistics.PrepareBuffer env Image2
            (Statistics.PrepareBuffer env Image s).state).state.m_CL.attempts
          = (Statistics.PrepareBuffer env Image s).state.m_CL.attempts + 1) ∧
      (Statistics.PrepareCoords env Image s).result = .error (.clError code) ∧
      (Statistics.PrepareCoords env Image s).state.m_PartialResultBuffer = none) ∧
    ((Statistics.PrepareBuffer env Image s).result = .ok () →
      coordReady env s Image = false →
      (Statistics.PrepareBuffer env Image s).state.m_CL.script = some code :: rest →
      (Statistics.PrepareCoords env Image s).result = .error (.clError code) ∧
      (Statistics.PrepareCoords env Image s).state.m_PartialCoordBuffer = none ∧
      (∀ Image2,
        (Statistics.PrepareCoords env Image s).state.m_CL.attempts
          < (Statistics.PrepareCoords env Image2
              (Statistics.PrepareCoords env Image s).state).state.m_CL.attempts ∧
        ((Statistics.PrepareBuffer env Image2
              (Statistics.PrepareCoords env Image s).state).result = .ok () →
          (Statistics.PrepareCoords env Image2
              (Statistics.PrepareCoords env Image s).state).state.m_CL.attempts
            = (Statistics.PrepareBuffer env Image2
                (Statistics.PrepareCoords env Image s).state).state.m_CL.attempts + 1))) := by
  constructor
  · intro hr hs
    rw [← resultReady_eq] at hr
    have hPB := PrepareBuffer_fail env s Image code rest hr hs
    have hnone : (Statistics.PrepareBuffer env Image s).state.m_PartialResultBuffer = none := by
      rw [hPB]
    have herr : (Statistics.PrepareBuffer env Image s).result = .error (.clError code) := by
      rw [hPB]
    refine ⟨herr, hnone, ?_, ?_, ?_⟩
    · intro Image2
      exact PrepareBuffer_attempts_of_none env _ Image2 hnone
    · rw [PrepareCoords_of_error env s Image _ herr]
    · rw [PrepareCoords_of_error env s Image _ herr]
      exact hnone
  · intro hok hc hs
    have hf := PrepareBuffer_frame env s Image
    have hc1 : coordBufferMatches (Statistics.PrepareBuffer env Image s).state
        (mulSize (NbGroupsOf env Image) 2) = false := by
      rw [← coordReady_eq] at hc
      unfold coordBufferMatches at hc ⊢
      rw [hf.1, hf.2.1]
      exact hc
    have hT := PrepareCoordsTail_fail env _ Image code rest hc1 hs
    have hnone : (Statistics.PrepareCoords env Image s).state.m_PartialCoordBuffer = none := by
      rw [PrepareCoords_of_ok env s Image hok, hT]
    refine ⟨?_, hnone, ?_⟩
    · rw [PrepareCoords_of_ok env s Image hok, hT]
    · intro Image2
      exact PrepareCoords_attempts_of_none env _ Image2 hnone

/-! ## Event traces of the public operations -/

/-- Shape of the operations on the partial-result buffer alone, wrapped by the
conversion `g` of the returned value. -/
theorem partial_shape {α β : Type} (env : Env) (name : KernelName) (Source : ImageBase)
    (f : List Val → α) (g : α → β) (s : Statistics) (r : Run β)
    (hr : r = ((do
      Statistics.PrepareBuffer env Source
      KernelPartial env name Source
      ReadPartialResult true
      CombinePartial f : StatM α) >>= fun v => pure (g v)) s) :
    ((∃ code, r.result = .error (.clError code)) ∧ r.events = []) ∨
    (∃ a handle, r.result = .ok a ∧
      r.events = [.Launch name
          [{ id := .PartialResult, handle := handle,
             Size := 5 * (env.GetNbGroups Source).val * sizeof_float,
             hostLen := 5 * (env.GetNbGroups Source).val, acc := none }],
        .Read .PartialResult true, .HostUse [.PartialResult]]) := by
  subst hr
  rcases PrepareBuffer_result env s Source with hok | ⟨code, herr⟩
  · right
    obtain ⟨hlen, b, hb, hsz⟩ := PrepareBuffer_sizes env s Source hok
    have hrun := PrepareBuffer_run_ok env s Source hok
    simp [bind, StatM.bind, pure, StatM.pure] at hrun ⊢
    rw [hrun]
    simp [KernelPartial, hb, ReadPartialResult, CombinePartial, hsz, hlen]
  · left
    have hrun := PrepareBuffer_run_error env s Source _ herr
    simp [bind, StatM.bind, pure, StatM.pure] at hrun ⊢
    rw [hrun]
    simp

/-- What the coordinate part of `PrepareCoords` leaves alone, its events and
its possible results. -/
theorem PrepareCoordsTail_frame (env : Env) (s : Statistics) (Image : ImageBase) :
    (Statistics.PrepareCoordsTail env Image s).state.m_PartialResultBuffer
        = s.m_PartialResultBuffer ∧
    (Statistics.PrepareCoordsTail env Image s).state.m_PartialResult = s.m_PartialResult ∧
    (Statistics.PrepareCoordsTail env Image s).events = [] ∧
    ((Statistics.PrepareCoordsTail env Image s).result = .ok () ∨
      ∃ code, (Statistics.PrepareCoordsTail env Image s).result = .error (.clError code)) := by
  rcases PrepareCoordsTail_outcome env s Image with hm | ⟨hm, code, rest, hs⟩ | ⟨hm, hs⟩
  · rw [PrepareCoordsTail_reuse env s Image hm]
    exact ⟨rfl, rfl, rfl, Or.inl rfl⟩
  · rw [PrepareCoordsTail_fail env s Image code rest hm hs]
    exact ⟨rfl, rfl, rfl, Or.inr ⟨code, rfl⟩⟩
  · rw [PrepareCoordsTail_alloc env s Image hm hs]
    exact ⟨rfl, rfl, rfl, Or.inl rfl⟩

/-- The outcome of `PrepareCoords`: no events; a normal return with both buffers
sized for the image, or the collaborator's exception. -/
theorem PrepareCoords_summary (env : Env) (s : Statistics) (Image : ImageBase) :
    (Statistics.PrepareCoords env Image s).events = [] ∧
    ((∃ code, (Statistics.PrepareCoords env Image s).result = .error (.clError code)) ∨
     ((Statistics.PrepareCoords env Image s).result = .ok () ∧
      (Statistics.PrepareCoords env Image s).state.m_PartialResult.length
          = 5 * (env.GetNbGroups Image).val ∧
      (Statistics.PrepareCoords env Image s).state.m_PartialCoord.length
          = 2 * (env.GetNbGroups Image).val ∧
      ∃ b c, (Statistics.PrepareCoords env Image s).state.m_PartialResultBuffer = some b ∧
        b.Size = 5 * (env.GetNbGroups Image).val * sizeof_float ∧
        (Statistics.PrepareCoords env Image s).state.m_PartialCoordBuffer = some c ∧
        c.Size = 2 * (env.GetNbGroups Image).val * sizeof_int)) := by
  rcases PrepareBuffer_result env s Image with hok | ⟨code, herr⟩
  · rw [PrepareCoords_of_ok env s Image hok]
    have hf := PrepareCoordsTail_frame env (Statistics.PrepareBuffer env Image s).state Image
    refine ⟨hf.2.2.1, ?_⟩
    rcases hf.2.2.2 with hok2 | ⟨code, herr⟩
    · right
      obtain ⟨hlen, b, hb, hsz⟩ := PrepareBuffer_sizes env s Image hok
      have hp := PrepareCoordsTail_post env _ Image hok2
      rw [coordBufferMatches_iff] at hp
      obtain ⟨c, hc, hcsz, hclen⟩ := hp
      rw [coordBytes_eq] at hcsz
      rw [coordSize_eq] at hclen
      refine ⟨hok2, ?_, hclen, b, c, ?_, hsz, hc, hcsz⟩
      · rw [hf.2.1]
        exact hlen
      · rw [hf.1]
        exact hb
    · exact Or.inl ⟨code, herr⟩
  · rw [PrepareCoords_of_error env s Image _ herr]
    exact ⟨rfl, Or.inl ⟨code, rfl⟩⟩

/-- Shape of the operations on the partial-result and coordinate buffers,
wrapped by the conversion `g` of the returned value. -/
theorem coord_shape {α β : Type} (env : Env) (name : KernelName) (Source : ImageBase)
    (f : List Val → List Val → α) (g : α → β) (s : Statistics) (r : Run β)
    (hr : r = ((do
      Statistics.PrepareCoords env Source
      KernelCoord env name Source
      ReadPartialResult false
      ReadPartialCoord true
      CombineCoord f : StatM α) >>= fun v => pure (g v)) s) :
    ((∃ code, r.result = .error (.clError code)) ∧ r.events = []) ∨
    (∃ a h1 h2, r.result = .ok a ∧
      r.events = [.Launch name
          [{ id := .PartialResult, handle := h1,
             Size := 5 * (env.GetNbGroups Source).val * sizeof_float,
             hostLen := 5 * (env.GetNbGroups Source).val, acc := none },
           { id := .PartialCoord, handle := h2,
             Size := 2 * (env.GetNbGroups Source).val * sizeof_int,
             hostLen := 2 * (env.GetNbGroups Source).val, acc := none }],
        .Read .PartialResult false, .Read .PartialCoord true,
        .HostUse [.PartialResult, .PartialCoord]]) := by
  subst hr
  obtain ⟨hev, hcase⟩ := PrepareCoords_summary env s Source
  cases hx : Statistics.PrepareCoords env Source s with
  | mk res st ev =>
      rw [hx] at hev hcase
      simp only at hev hcase
      subst hev
      rcases hcase with ⟨code, herr⟩ | ⟨hok, hlen, hclen, b, c, hb, hsz, hc, hcsz⟩
      · left
        subst herr
        simp [bind, StatM.bind, pure, StatM.pure, hx]
      · right
        subst hok
        simp [bind, StatM.bind, pure, StatM.pure, hx, KernelCoord, hb, hc,
          ReadPartialResult, ReadPartialCoord, CombineCoord, hsz, hlen, hcsz, hclen]

/-- Converting the returned value changes neither the events nor the state. -/
theorem bind_pure_run {α β : Type} (m : StatM α) (g : α → β) (s : Statistics) :
    ((m >>= fun v => pure (g v)) s).events = (m s).events ∧
    ((m >>= fun v => pure (g v)) s).state = (m s).state ∧
    ((m >>= fun v => pure (g v)) s).result = Except.map g (m s).result := by
  show (StatM.bind m (fun v => StatM.pure (g v)) s).events = _ ∧
    (StatM.bind m (fun v => StatM.pure (g v)) s).state = _ ∧
    (StatM.bind m (fun v => StatM.pure (g v)) s).result = _
  unfold StatM.bind StatM.pure
  cases hx : m s with
  | mk res st ev =>
      cases res with
      | error e => simp [Except.map]
      | ok a => simp [Except.map]

/-- Trace of the operations on the accumulator: initialization, reduction,
blocking read, host read of the result. -/
theorem acc_events (env : Env) (op : Op) (Source : ImageBase) (outVal : Slots4)
    (s : Statistics) (h : op.usesPartial = false) :
    ∃ n, op.initKernel = some n ∧
      (op.run env Source outVal s).events =
        [.SendIfNeeded, .Launch n [resultArg s],
         .Launch op.kernel
           [{ resultArg s with acc := some (env.kernelAcc n Source s.m_ResultBuffer.dev) }],
         .Read .Result true, .HostUse [.Result]] := by
  cases op <;> first
    | exact ⟨_, rfl, rfl⟩
    | exact ⟨_, rfl, (bind_pure_run _ _ s).1⟩
    | exact absurd h (by decide)

/-- Trace of the operations on the partial-result buffer alone. -/
theorem partial_events (env : Env) (op : Op) (Source : ImageBase) (outVal : Slots4)
    (s : Statistics) (h : op.usesPartial = true) (hc : op.usesCoords = false) :
    ((∃ code, (op.run env Source outVal s).result = .error (.clError code)) ∧
      (op.run env Source outVal s).events = []) ∨
    (∃ a handle, (op.run env Source outVal s).result = .ok a ∧
      (op.run env Source outVal s).events = [.Launch op.kernel
          [{ id := .PartialResult, handle := handle,
             Size := 5 * (env.GetNbGroups Source).val * sizeof_float,
             hostLen := 5 * (env.GetNbGroups Source).val, acc := none }],
        .Read .PartialResult true, .HostUse [.PartialResult]]) := by
  cases op <;> first
    | exact partial_shape env _ Source _ _ s _ rfl
    | exact absurd h (by decide)
    | exact absurd hc (by decide)

/-- Trace of the operations with coordinates. -/
theorem coord_events (env : Env) (op : Op) (Source : ImageBase) (outVal : Slots4)
    (s : Statistics) (hc : op.usesCoords = true) :
    ((∃ code, (op.run env Source outVal s).result = .error (.clError code)) ∧
      (op.run env Source outVal s).events = []) ∨
    (∃ a h1 h2, (op.run env Source outVal s).result = .ok a ∧
      (op.run env Source outVal s).events = [.Launch op.kernel
          [{ id := .PartialResult, handle := h1,
             Size := 5 * (env.GetNbGroups Source).val * sizeof_float,
             hostLen := 5 * (env.GetNbGroups Source).val, acc := none },
           { id := .PartialCoord, handle := h2,
             Size := 2 * (env.GetNbGroups Source).val * sizeof_int,
             hostLen := 2 * (env.GetNbGroups Source).val, acc := none }],
        .Read .PartialResult false, .Read .PartialCoord true,
        .HostUse [.PartialResult, .PartialCoord]]) := by
  cases op <;> first
    | exact coord_shape env _ Source _ _ s _ rfl
    | exact absurd hc (by decide)

/-! ## Sizes at dispatch, order of the events -/

/-- C4: after any sequence of earlier public calls on any images, from any
state of the instance, every operation on the partial buffers hands its reduction
kernel a partial-result buffer of `5 * NbGroups(Source)` cells
(`5 * NbGroups(Source) * sizeof(float)` bytes over a host sequence of that many
elements) and, for the coordinate overloads, a coordinate buffer of
`2 * NbGroups(Source)` cells; nothing else is launched, a normal return comes
with that launch, and the only other outcome is the exception of a failed
buffer creation, before any launch. -/
theorem dispatch_sizes_after_any_history (env : Env) (s0 : Statistics) (history : List Call)
    (op : Op) (Source : ImageBase) (outVal : Slots4) (h : op.usesPartial = true) :
    (∀ name outs,
      Event.Launch name outs ∈ (op.run env Source outVal (runCalls env history s0)).events →
      name = op.kernel ∧
      (∃ a ∈ outs, a.id = .PartialResult) ∧
      (op.usesCoords = true → ∃ a ∈ outs, a.id = .PartialCoord) ∧
      ∀ a ∈ outs,
        (a.id = .PartialResult →
          a.Size = 5 * (env.GetNbGroups Source).val * sizeof_float ∧
          a.Size / sizeof_float = 5 * (env.GetNbGroups Source).val ∧
          a.hostLen = 5 * (env.GetNbGroups Source).val) ∧
        (a.id = .PartialCoord →
          a.Size = 2 * (env.GetNbGroups Source).val * sizeof_int ∧
          a.Size / sizeof_int = 2 * (env.GetNbGroups Source).val ∧
          a.hostLen = 2 * (env.GetNbGroups Source).val)) ∧
    (∀ a, (op.run env Source outVal (runCalls env history s0)).result = .ok a →
      ∃ outs, Event.Launch op.kernel outs ∈
        (op.run env Source outVal (runCalls env history s0)).events) ∧
    ((∃ a, (op.run env Source outVal (runCalls env history s0)).result = .ok a) ∨
      ((∃ code, (op.run env Source outVal (runCalls env history s0)).result
          = .error (.clError code)) ∧
        (op.run env Source outVal (runCalls env history s0)).events = [])) := by
  cases hc : op.usesCoords with
  | false =>
      rcases partial_events env op Source outVal (runCalls env history s0) h hc with
        ⟨⟨code, herr⟩, hev⟩ | ⟨a, handle, hok, hev⟩
      · rw [hev, herr]
        simp
      · rw [hev, hok]
        simp [sizeof_float]
  | true =>
      rcases coord_events env op Source outVal (runCalls env history s0) hc with
        ⟨⟨code, herr⟩, hev⟩ | ⟨a, h1, h2, hok, hev⟩
      · rw [hev, herr]
        simp
      · rw [hev, hok]
        simp [sizeof_float, sizeof_int]

/-- Every run of a public operation leaves one of four traces. -/
theorem run_events_cases (env : Env) (op : Op) (Source : ImageBase) (outVal : Slots4)
    (s : Statistics) :
    ((∃ code, (op.run env Source outVal s).result = .error (.clError code)) ∧
      op.usesPartial = true ∧ (op.run env Source outVal s).events = []) ∨
    (∃ n a1 a2, op.usesPartial = false ∧ op.usesCoords = false ∧
      op.initKernel = some n ∧ n.isInit = true ∧ op.kernel.isInit = false ∧
      (op.run env Source outVal s).events =
        [.SendIfNeeded, .Launch n [a1], .Launch op.kernel [a2],
         .Read .Result true, .HostUse [.Result]]) ∨
    (∃ a b, op.usesPartial = true ∧ op.usesCoords = false ∧ op.kernel.isInit = false ∧
      (op.run env Source outVal s).result = .ok a ∧
      (op.run env Source outVal s).events =
        [.Launch op.kernel [b], .Read .PartialResult true, .HostUse [.PartialResult]]) ∨
    (∃ a b c, op.usesPartial = true ∧ op.usesCoords = true ∧ op.kernel.isInit = false ∧
      (op.run env Source outVal s).result = .ok a ∧
      (op.run env Source outVal s).events =
        [.Launch op.kernel [b, c], .Read .PartialResult false, .Read .PartialCoord true,
         .HostUse [.PartialResult, .PartialCoord]]) := by
  cases hp : op.usesPartial with
  | false =>
      obtain ⟨n, hn, hev⟩ := acc_events env op Source outVal s hp
      right
      left
      refine ⟨n, _, _, rfl, ?_, hn, ?_, ?_, hev⟩
      · cases op <;> first | rfl | exact absurd hp (by decide)
      · cases op <;> first
          | (cases hn; rfl)
          | exact absurd hp (by decide)
      · cases op <;> rfl
  | true =>
      cases hc : op.usesCoords with
      | false =>
          rcases partial_events env op Source outVal s hp hc with
            ⟨herr, hev⟩ | ⟨a, handle, hok, hev⟩
          · exact Or.inl ⟨herr, rfl, hev⟩
          · right
            right
            left
            refine ⟨a, _, rfl, rfl, ?_, hok, hev⟩
            cases op <;> rfl
      | true =>
          rcases coord_events env op Source outVal s hc with
            ⟨herr, hev⟩ | ⟨a, h1, h2, hok, hev⟩
          · exact Or.inl ⟨herr, rfl, hev⟩
          · right
            right
            right
            refine ⟨a, _, _, rfl, rfl, ?_, hok, hev⟩
            cases op <;> rfl

/-- C7: in the trace of every public operation the events come in the order
initialization, reduction kernel, blocking read, host use (combine, or read of
the returned result): no pair of events breaks it; every host use has a
blocking read before it and the launch of the reduction kernel before that
read; an operation returns normally only after a host use; and the operations
on the accumulator (Min, Max, MinAbs, MaxAbs, scalar and per-channel) launch
their initialization kernel before their reduction kernel. -/
theorem operation_events_ordered (env : Env) (op : Op) (Source : ImageBase)
    (outVal : Slots4) (s : Statistics) :
    List.Pairwise (fun a b => Event.outOfOrder a b = false)
      (op.run env Source outVal s).events ∧
    (∀ (c : Nat) (u : Event),
      (op.run env Source outVal s).events[c]? = some u → u.isHostUse = true →
      ∃ (j k : Nat) (outs : List BufArg) (rd : Event), j < k ∧ k < c ∧
        (op.run env Source outVal s).events[j]? = some (Event.Launch op.kernel outs) ∧
        op.kernel.isInit = false ∧
        (op.run env Source outVal s).events[k]? = some rd ∧ rd.isBlockingRead = true) ∧
    (∀ a, (op.run env Source outVal s).result = .ok a →
      ∃ (c : Nat) (u : Event),
        (op.run env Source outVal s).events[c]? = some u ∧ u.isHostUse = true) ∧
    (op.usesPartial = false →
      ∃ (i j : Nat) (n : KernelName) (outs1 outs2 : List BufArg), i < j ∧
        op.initKernel = some n ∧ n.isInit = true ∧
        (op.run env Source outVal s).events[i]? = some (Event.Launch n outs1) ∧
        (op.run env Source outVal s).events[j]? = some (Event.Launch op.kernel outs2)) := by
  rcases run_events_cases env op Source outVal s with
    ⟨⟨code, herr⟩, hp, hev⟩ | ⟨n, a1, a2, hp, hc, hn, hni, hk, hev⟩ |
    ⟨a, b, hp, hc, hk, hok, hev⟩ | ⟨a, b, c, hp, hc, hk, hok, hev⟩
  · rw [hev, herr]
    simp [hp]
  · rw [hev]
    refine ⟨?_, ?_, ?_, ?_⟩
    · simp [Event.outOfOrder, Event.isReduce, Event.isInit, Event.isBlockingRead,
        Event.isHostUse, hni, hk]
    · intro c u hcu hu
      rcases c with _ | _ | _ | _ | _ | c <;> simp at hcu <;> subst hcu <;>
        simp [Event.isHostUse] at hu
      exact ⟨2, 3, _, _, by decide, by decide, rfl, hk, rfl, rfl⟩
    · intro a _
      exact ⟨4, _, rfl, rfl⟩
    · intro _
      exact ⟨1, 2, n, _, _, by decide, hn, hni, rfl, rfl⟩
  · rw [hev]
    refine ⟨?_, ?_, ?_, ?_⟩
    · simp [Event.outOfOrder, Event.isReduce, Event.isInit, Event.isBlockingRead,
        Event.isHostUse, hk]
    · intro c u hcu hu
      rcases c with _ | _ | _ | c <;> simp at hcu <;> subst hcu <;>
        simp [Event.isHostUse] at hu
      exact ⟨0, 1, _, _, by decide, by decide, rfl, hk, rfl, rfl⟩
    · intro a _
      exact ⟨2, _, rfl, rfl⟩
    · intro hq
      rw [hp] at hq
      cases hq
  · rw [hev]
    refine ⟨?_, ?_, ?_, ?_⟩
    · simp [Event.outOfOrder, Event.isReduce, Event.isInit, Event.isBlockingRead,
        Event.isHostUse, hk]
    · intro c u hcu hu
      rcases c with _ | _ | _ | _ | c <;> simp at hcu <;> subst hcu <;>
        simp [Event.isHostUse] at hu
      exact ⟨0, 2, _, _, by decide, by decide, rfl, hk, rfl, rfl⟩
    · intro a _
      exact ⟨3, _, rfl, rfl⟩
    · intro hq
      rw [hp] at hq
      cases hq

/-- C10: in every public operation, each buffer the host combine (or the
returning statement) reads has a device-to-host read of that same buffer issued
after the launch of the reduction kernel and complete before the host reads:
the partial-result buffer for the sums, means and the count, the partial-result
and the coordinate buffer for the extrema with coordinates. A normal return of
an operation on the partial buffers comes with such a combine. -/
theorem combine_reads_completed_buffers (env : Env) (op : Op) (Source : ImageBase)
    (outVal : Slots4) (s : Statistics) :
    (∀ (c : Nat) (bufs : List BufId),
      (op.run env Source outVal s).events[c]? = some (Event.HostUse bufs) →
      ∃ (l : Nat) (outs : List BufArg),
        (op.run env Source outVal s).events[l]? = some (Event.Launch op.kernel outs) ∧
        ∀ b ∈ bufs, ReadCompleteBetween (op.run env Source outVal s).events b l c) ∧
    (∀ a, (op.run env Source outVal s).result = .ok a → op.usesPartial = true →
      ∃ c : Nat, (op.run env Source outVal s).events[c]? =
        some (Event.HostUse (if op.usesCoords then [.PartialResult, .PartialCoord]
          else [.PartialResult]))) := by
  rcases run_events_cases env op Source outVal s with
    ⟨⟨code, herr⟩, hp, hev⟩ | ⟨n, a1, a2, hp, hc, hn, hni, hk, hev⟩ |
    ⟨a, b, hp, hc, hk, hok, hev⟩ | ⟨a, b, c, hp, hc, hk, hok, hev⟩
  · rw [hev, herr]
    simp
  · rw [hev]
    refine ⟨?_, ?_⟩
    · intro c bufs hcu
      rcases c with _ | _ | _ | _ | _ | c <;> simp at hcu
      subst hcu
      refine ⟨2, _, rfl, ?_⟩
      intro b hb
      simp at hb
      subst hb
      exact ⟨3, 3, true, .Result, by decide, by decide, by decide, rfl, rfl⟩
    · intro a _ hq
      rw [hp] at hq
      cases hq
  · rw [hev]
    refine ⟨?_, ?_⟩
    · intro c bufs hcu
      rcases c with _ | _ | _ | c <;> simp at hcu
      subst hcu
      refine ⟨0, _, rfl, ?_⟩
      intro b hb
      simp at hb
      subst hb
      exact ⟨1, 1, true, .PartialResult, by decide, by decide, by decide, rfl, rfl⟩
    · intro a _ _
      exact ⟨2, by simp [hc]⟩
  · rw [hev]
    refine ⟨?_, ?_⟩
    · intro c0 bufs hcu
      rcases c0 with _ | _ | _ | _ | c0 <;> simp at hcu
      subst hcu
      refine ⟨0, _, rfl, ?_⟩
      intro b0 hb
      simp at hb
      rcases hb with hb | hb
      · subst hb
        exact ⟨1, 2, false, .PartialCoord, by decide, by decide, by decide, rfl, rfl⟩
      · subst hb
        exact ⟨2, 2, true, .PartialCoord, by decide, by decide, by decide, rfl, rfl⟩
    · intro a _ _
      exact ⟨3, by simp [hc]⟩

/-! ## Initialization and output of the extrema without coordinates -/

/-- C8, refuted as stated: on `sampleImage` and a fresh instance, whatever the
kernels compute, the reduction kernels of `Min` and of `Max` do not start from
different accumulator values. -/
theorem Min_Max_same_initial_accumulator :
    ¬ ∃ env : Env, ∃ vmin vmax : Slots4,
      reduceLaunchAcc .Min (Op.Min.run env sampleImage zeroSlots freshStatistics).events
        = some vmin ∧
      reduceLaunchAcc .Max (Op.Max.run env sampleImage zeroSlots freshStatistics).events
        = some vmax ∧
      vmin ≠ vmax := by
  rintro ⟨env, vmin, vmax, h1, h2, hne⟩
  have e1 : reduceLaunchAcc .Min
      (Op.Min.run env sampleImage zeroSlots freshStatistics).events
      = some (env.kernelAcc .init sampleImage freshStatistics.m_ResultBuffer.dev) := rfl
  have e2 : reduceLaunchAcc .Max
      (Op.Max.run env sampleImage zeroSlots freshStatistics).events
      = some (env.kernelAcc .init sampleImage freshStatistics.m_ResultBuffer.dev) := rfl
  rw [e1] at h1
  rw [e2] at h2
  exact hne (Option.some.inj (h1.symm.trans h2))

/-- C8, amended: an extremum without coordinates first launches an
initialization kernel on `(Source, m_ResultBuffer)`, chosen by the variant
(plain or absolute value, scalar or per-channel) and not by the family: `init`
for `Min` and `Max`, `init_abs` for `MinAbs` and `MaxAbs`, `init_4C` and
`init_abs_4C` for the per-channel overloads; its reduction kernel starts from
what that kernel left in the accumulator, so `Min` and `Max` (and each other
min/max pair) start from the same accumulator values. -/
theorem extrema_initialization (env : Env) (Source : ImageBase) (outVal : Slots4)
    (s : Statistics) :
    (∀ op : Op, op.usesPartial = false →
      ∃ n, op.initKernel = some n ∧
        (op.run env Source outVal s).events =
          [.SendIfNeeded, .Launch n [resultArg s],
           .Launch op.kernel
             [{ resultArg s with acc := some (env.kernelAcc n Source s.m_ResultBuffer.dev) }],
           .Read .Result true, .HostUse [.Result]] ∧
        reduceLaunchAcc op (op.run env Source outVal s).events
          = some (env.kernelAcc n Source s.m_ResultBuffer.dev)) ∧
    (Op.Min.initKernel = some .init ∧ Op.Max.initKernel = some .init ∧
      Op.MinAbs.initKernel = some .init_abs ∧ Op.MaxAbs.initKernel = some .init_abs ∧
      Op.Min4C.initKernel = some .init_4C ∧ Op.Max4C.initKernel = some .init_4C ∧
      Op.MinAbs4C.initKernel = some .init_abs_4C ∧
      Op.MaxAbs4C.initKernel = some .init_abs_4C) ∧
    (reduceLaunchAcc .Min (Op.Min.run env Source outVal s).events
        = reduceLaunchAcc .Max (Op.Max.run env Source outVal s).events ∧
      reduceLaunchAcc .MinAbs (Op.MinAbs.run env Source outVal s).events
        = reduceLaunchAcc .MaxAbs (Op.MaxAbs.run env Source outVal s).events ∧
      reduceLaunchAcc .Min4C (Op.Min4C.run env Source outVal s).events
        = reduceLaunchAcc .Max4C (Op.Max4C.run env Source outVal s).events ∧
      reduceLaunchAcc .MinAbs4C (Op.MinAbs4C.run env Source outVal s).events
        = reduceLaunchAcc .MaxAbs4C (Op.MaxAbs4C.run env Source outVal s).events) := by
  have key : ∀ op : Op, op.usesPartial = false →
      ∃ n, op.initKernel = some n ∧
        (op.run env Source outVal s).events =
          [.SendIfNeeded, .Launch n [resultArg s],
           .Launch op.kernel
             [{ resultArg s with acc := some (env.kernelAcc n Source s.m_ResultBuffer.dev) }],
           .Read .Result true, .HostUse [.Result]] ∧
        reduceLaunchAcc op (op.run env Source outVal s).events
          = some (env.kernelAcc n Source s.m_ResultBuffer.dev) := by
    intro op h
    obtain ⟨n, hn, hev⟩ := acc_events env op Source outVal s h
    refine ⟨n, hn, hev, ?_⟩
    rw [hev]
    cases op <;> first
      | (cases hn; rfl)
      | exact absurd h (by decide)
  refine ⟨key, ⟨rfl, rfl, rfl, rfl, rfl, rfl, rfl, rfl⟩, ?_, ?_, ?_, ?_⟩
  · obtain ⟨n1, hn1, _, h1⟩ := key .Min rfl
    obtain ⟨n2, hn2, _, h2⟩ := key .Max rfl
    cases hn1
    cases hn2
    rw [h1, h2]
  · obtain ⟨n1, hn1, _, h1⟩ := key .MinAbs rfl
    obtain ⟨n2, hn2, _, h2⟩ := key .MaxAbs rfl
    cases hn1
    cases hn2
    rw [h1, h2]
  · obtain ⟨n1, hn1, _, h1⟩ := key .Min4C rfl
    obtain ⟨n2, hn2, _, h2⟩ := key .Max4C rfl
    cases hn1
    cases hn2
    rw [h1, h2]
  · obtain ⟨n1, hn1, _, h1⟩ := key .MinAbs4C rfl
    obtain ⟨n2, hn2, _, h2⟩ := key .MaxAbs4C rfl
    cases hn1
    cases hn2
    rw [h1, h2]

/-- The closing loop of the per-channel extrema, for at most 4 channels: it
stays in bounds, copies the first `n` slots and keeps the others. -/
theorem copyChannels_spec (m outVal : Slots4) (n : Nat) (hn : n ≤ 4) :
    ∃ out, copyChannels m n 0 outVal = .ok out ∧
      (∀ i, i < n → ∃ v, m.get i = .ok v ∧ out.get i = .ok v) ∧
      (∀ i, n ≤ i → i < 4 → out.get i = outVal.get i) := by
  rcases n with _ | _ | _ | _ | _ | n
  · refine ⟨outVal, rfl, ?_, ?_⟩
    · intro i hi
      omega
    · intro i _ _
      rfl
  · refine ⟨{ outVal with c0 := m.c0 }, rfl, ?_, ?_⟩
    · intro i hi
      interval_cases i
      exact ⟨_, rfl, rfl⟩
    · intro i h1 h2
      interval_cases i <;> rfl
  · refine ⟨{ outVal with c0 := m.c0, c1 := m.c1 }, rfl, ?_, ?_⟩
    · intro i hi
      interval_cases i <;> exact ⟨_, rfl, rfl⟩
    · intro i h1 h2
      interval_cases i <;> rfl
  · refine ⟨{ outVal with c0 := m.c0, c1 := m.c1, c2 := m.c2 }, rfl, ?_, ?_⟩
    · intro i hi
      interval_cases i <;> exact ⟨_, rfl, rfl⟩
    · intro i h1 h2
      interval_cases i
      rfl
  · refine ⟨{ c0 := m.c0, c1 := m.c1, c2 := m.c2, c3 := m.c3 }, rfl, ?_, ?_⟩
    · intro i hi
      interval_cases i <;> exact ⟨_, rfl, rfl⟩
    · intro i h1 h2
      omega
  · omega

/-- State of the accumulator after an operation on it: the host array holds
what was read back from the device, which is what the reduction kernel left. -/
theorem acc_state (env : Env) (op : Op) (Source : ImageBase) (outVal : Slots4)
    (s : Statistics) (h : op.usesPartial = false) :
    ∃ n, op.initKernel = some n ∧
      (op.run env Source outVal s).state.m_ResultBuffer.dev
        = env.kernelAcc op.kernel Source (env.kernelAcc n Source s.m_ResultBuffer.dev) ∧
      (op.run env Source outVal s).state.m_Result
        = (op.run env Source outVal s).state.m_ResultBuffer.dev := by
  cases op <;> first
    | exact ⟨_, rfl, rfl, rfl⟩
    | (refine ⟨_, rfl, ?_, ?_⟩ <;> simp only [Op.run] <;>
        rw [(bind_pure_run _ _ s).2.1] <;> rfl)
    | exact absurd h (by decide)

/-- Result of a per-channel extremum: the closing loop run on the accumulator
read back from the device. -/
theorem extremum4C_result (env : Env) (op : Op) (Source : ImageBase) (outVal : Slots4)
    (s : Statistics) (h : op.isExtremum4C = true) :
    (op.run env Source outVal s).result =
      Except.map Ret.channels
        (copyChannels (op.run env Source outVal s).state.m_Result
          Source.NbChannels 0 outVal) := by
  cases op <;> first
    | exact absurd h (by decide)
    | (simp only [Op.run]
       rw [(bind_pure_run _ _ s).2.2, (bind_pure_run _ _ s).2.1]
       rfl)

/-- C9: for an image of at most 4 channels and any prior content of `outVal`,
the per-channel `Min`, `Max`, `MinAbs` and `MaxAbs` return normally, having
read only slots inside the 4-slot accumulator, with `outVal[i]` equal to slot
`i` of the accumulator as read back from the device for every
`i < NbChannels()` and `outVal[i]` unchanged for `NbChannels() <= i < 4`; the
scalar overloads return slot 0 of the accumulator read back from the device. -/
theorem extrema_output_slots (env : Env) (op : Op) (Source : ImageBase) (outVal : Slots4)
    (s : Statistics) (hn : Source.NbChannels ≤ 4) :
    (op.isExtremum4C = true →
      (op.run env Source outVal s).state.m_Result
        = (op.run env Source outVal s).state.m_ResultBuffer.dev ∧
      ∃ out, (op.run env Source outVal s).result = .ok (.channels out) ∧
        (∀ i, i < Source.NbChannels →
          ∃ v, (op.run env Source outVal s).state.m_Result.get i = .ok v ∧
            out.get i = .ok v) ∧
        (∀ i, Source.NbChannels ≤ i → i < 4 → out.get i = outVal.get i)) ∧
    (op.isExtremumScalar = true →
      (op.run env Source outVal s).state.m_Result
        = (op.run env Source outVal s).state.m_ResultBuffer.dev ∧
      (op.run env Source outVal s).result
        = .ok (.value (op.run env Source outVal s).state.m_Result.c0)) := by
  constructor
  · intro h
    have hp : op.usesPartial = false := by
      cases op <;> first | rfl | exact absurd h (by decide)
    obtain ⟨n, _, _, hres⟩ := acc_state env op Source outVal s hp
    refine ⟨hres, ?_⟩
    obtain ⟨out, hout, h1, h2⟩ :=
      copyChannels_spec (op.run env Source outVal s).state.m_Result outVal
        Source.NbChannels hn
    refine ⟨out, ?_, h1, h2⟩
    rw [extremum4C_result env op Source outVal s h, hout]
    rfl
  · intro h
    have hp : op.usesPartial = false := by
      cases op <;> first | rfl | exact absurd h (by decide)
    obtain ⟨n, _, _, hres⟩ := acc_state env op Source outVal s hp
    refine ⟨hres, ?_⟩
    cases op <;> first
      | rfl
      | exact absurd h (by decide)

/-- Witness of C9: per-channel `Min` on a 3-channel image. -/
theorem extrema_output_slots_witness :
    sampleImage3.NbChannels ≤ 4 ∧
    (Op.Min4C.run sampleEnv sampleImage3 { c0 := 10, c1 := 11, c2 := 12, c3 := 13 }
      freshStatistics).result = .ok (.channels { c0 := 7, c1 := 8, c2 := 9, c3 := 13 }) ∧
    ∃ out, (Op.Min4C.run sampleEnv sampleImage3 { c0 := 10, c1 := 11, c2 := 12, c3 := 13 }
        freshStatistics).result = .ok (.channels out) ∧
      (∀ i, sampleImage3.NbChannels ≤ i → i < 4 →
        out.get i = Slots4.get { c0 := 10, c1 := 11, c2 := 12, c3 := 13 } i) :=
  have h := (extrema_output_slots sampleEnv .Min4C sampleImage3
    { c0 := 10, c1 := 11, c2 := 12, c3 := 13 } freshStatistics (by decide)).1 rfl
  ⟨by decide, rfl, h.2.imp (fun _ ho => ⟨ho.1, ho.2.2⟩)⟩

/-- Witness of C4: `Min` with coordinates on `sampleImage` after a `Sum` on a
wider image and a `Max` with coordinates. -/
theorem dispatch_sizes_after_any_history_witness :
    Op.MinCoord.usesPartial = true ∧
    ∃ outs, Event.Launch Op.MinCoord.kernel outs ∈
      (Op.MinCoord.run sampleEnv sampleImage zeroSlots
        (runCalls sampleEnv sampleHistory freshStatistics)).events :=
  ⟨rfl, (dispatch_sizes_after_any_history sampleEnv freshStatistics sampleHistory
    .MinCoord sampleImage zeroSlots rfl).2.1 _ rfl⟩

/-- Witness of C5: a refused creation of the partial-result buffer while an
old buffer is held, and a refused creation of the coordinate buffer while the
partial-result buffer is reused. -/
theorem creation_failure_resets_handle_witness :
    (resultReady sampleEnv staleStatistics sampleImage = false ∧
      staleStatistics.m_CL.script = [some (-4)] ∧
      (Statistics.PrepareBuffer sampleEnv sampleImage staleStatistics).result
        = .error (.clError (-4)) ∧
      (Statistics.PrepareBuffer sampleEnv sampleImage
        staleStatistics).state.m_PartialResultBuffer = none) ∧
    (coordReady sampleEnv preparedStatistics sampleImage = false ∧
      (Statistics.PrepareCoords sampleEnv sampleImage preparedStatistics).result
        = .error (.clError (-4)) ∧
      (Statistics.PrepareCoords sampleEnv sampleImage
        preparedStatistics).state.m_PartialCoordBuffer = none) :=
  have h1 := (creation_failure_resets_handle sampleEnv staleStatistics sampleImage
    (-4) []).1 rfl rfl
  have h2 := (creation_failure_resets_handle sampleEnv preparedStatistics sampleImage
    (-4) []).2 rfl rfl rfl
  ⟨⟨rfl, rfl, h1.1, h1.2.1⟩, ⟨rfl, h2.1, h2.2.1⟩⟩

/-- Witness of C7: the initialization of `Min` comes before its reduction. -/
theorem operation_events_ordered_witness :
    Op.Min.usesPartial = false ∧
    ∃ (i j : Nat) (n : KernelName) (outs1 outs2 : List BufArg), i < j ∧
      Op.Min.initKernel = some n ∧ n.isInit = true ∧
      (Op.Min.run sampleEnv sampleImage zeroSlots freshStatistics).events[i]?
        = some (Event.Launch n outs1) ∧
      (Op.Min.run sampleEnv sampleImage zeroSlots freshStatistics).events[j]?
        = some (Event.Launch Op.Min.kernel outs2) :=
  ⟨rfl, (operation_events_ordered sampleEnv .Min sampleImage zeroSlots
    freshStatistics).2.2.2 rfl⟩

/-- Witness of C8 as amended: `Max` on `sampleImage`. -/
theorem extrema_initialization_witness :
    Op.Max.usesPartial = false ∧
    ∃ n, Op.Max.initKernel = some n ∧
      reduceLaunchAcc .Max (Op.Max.run sampleEnv sampleImage zeroSlots freshStatistics).events
        = some (sampleEnv.kernelAcc n sampleImage freshStatistics.m_ResultBuffer.dev) :=
  ⟨rfl, ((extrema_initialization sampleEnv sampleImage zeroSlots freshStatistics).1
    .Max rfl).imp (fun _ h => ⟨h.1, h.2.2⟩)⟩

/-- Witness of C10: `Min` with coordinates on a fresh instance combines over
both partial buffers. -/
theorem combine_reads_completed_buffers_witness :
    Op.MinCoord.usesPartial = true ∧
    ∃ c : Nat, (Op.MinCoord.run sampleEnv sampleImage zeroSlots freshStatistics).events[c]? =
      some (Event.HostUse (if Op.MinCoord.usesCoords then [.PartialResult, .PartialCoord]
        else [.PartialResult])) :=
  ⟨rfl, (combine_reads_completed_buffers sampleEnv .MinCoord sampleImage zeroSlots
    freshStatistics).2 _ rfl rfl⟩

end OpenCLIPP
